import Mathlib

/-!
# CustomFrameBuffer (tracker/OpenGL/CustomFrameBuffer.cpp)

A shallow embedding of the off-screen render target wrapper: constructors,
destructor, ready, bind, unbind, init, cleanup, the three create functions,
create_framebuffer and the three fetch functions.  The display functions only
add a flip and a window to a fetch and are left out.  The graphics
driver and the image library are outside the unit; they are modelled here by

* a log of every driver call the unit issues, oldest first (GLState.calls),
* the little driver state the unit depends on (the GL_TEXTURE_2D binding, the
  level-0 image of each texture name and the value of GL_PACK_ALIGNMENT),
* a Driver record giving the answers the driver chooses by itself (fresh
  names, the completeness status, the contents of storage allocated without
  data), each as a function of the calls made so far,
* Mat, an image header with its bytes.

Stops of the program (the CHECK macro, assert, an exception of the image
library, an access outside a buffer) are values of Failure.
-/

set_option autoImplicit false

namespace HOnline

/-! ## Driver constants (values of the OpenGL headers) -/

abbrev GLenum := Nat
abbrev GLuint := Nat

abbrev GL_TEXTURE_2D : GLenum := 0x0DE1
abbrev GL_TEXTURE_MAG_FILTER : GLenum := 0x2800
abbrev GL_TEXTURE_MIN_FILTER : GLenum := 0x2801
abbrev GL_TEXTURE_WRAP_S : GLenum := 0x2802
abbrev GL_TEXTURE_WRAP_T : GLenum := 0x2803
abbrev GL_NEAREST : GLenum := 0x2600
abbrev GL_CLAMP_TO_EDGE : GLenum := 0x812F
abbrev GL_UNSIGNED_SHORT : GLenum := 0x1403
abbrev GL_FLOAT : GLenum := 0x1406
abbrev GL_RGB : GLenum := 0x1907
abbrev GL_R16UI : GLenum := 0x8234
abbrev GL_RGB32F : GLenum := 0x8815
abbrev GL_RED_INTEGER : GLenum := 0x8D94
abbrev GL_FRAMEBUFFER : GLenum := 0x8D40
abbrev GL_FRAMEBUFFER_EXT : GLenum := 0x8D40
abbrev GL_FRAMEBUFFER_COMPLETE : GLenum := 0x8CD5
abbrev GL_COLOR_ATTACHMENT0 : GLenum := 0x8CE0
abbrev GL_COLOR_ATTACHMENT1 : GLenum := 0x8CE1

/-! ## Image library constants (values of the OpenCV headers) -/

abbrev CV_8UC1 : Nat := 0
abbrev CV_16UC1 : Nat := 2
abbrev CV_8UC3 : Nat := 16
abbrev CV_32FC3 : Nat := 21

/-! ## The driver -/

/-- One call into the graphics driver, with its arguments.  Every call of this
unit that takes a count and an array passes the count 1 and the address of one
name, recorded here as the count and that name; a generated name is recorded
with the call that returned it, and so is the completeness status. -/
inductive GLCall where
  | glGenTextures (n : Nat) (texture : GLuint)
  | glDeleteTextures (n : Nat) (texture : GLuint)
  | glBindTexture (target : GLenum) (texture : GLuint)
  | glTexParameteri (target pname param : GLenum)
  | glTexImage2D (target : GLenum) (level : Int) (internalformat : GLenum)
      (width height border : Int) (format type : GLenum)
  | glGetTexImage (target : GLenum) (level : Int) (format type : GLenum)
  | glGenFramebuffers (n : Nat) (framebuffer : GLuint)
  | glDeleteFramebuffers (n : Nat) (framebuffer : GLuint)
  | glBindFramebuffer (target : GLenum) (framebuffer : GLuint)
  | glFramebufferTexture2D (target attachment textarget : GLenum) (texture : GLuint) (level : Int)
  | glCheckFramebufferStatus (target : GLenum) (status : GLenum)
  | glDrawBuffers (n : Nat) (bufs : List GLenum)
  deriving DecidableEq, Repr

/-- The answers the driver chooses, each from the calls made so far. -/
structure Driver where
  genTexture : List GLCall → GLuint
  genFramebuffer : List GLCall → GLuint
  checkFramebufferStatus : List GLCall → GLenum
  undefinedTexel : List GLCall → Nat → Nat

/-- Level-0 image of a texture: its size, its internal format and its
components in row-major order (raw bit patterns, one per component). -/
structure TexImage where
  width : Int
  height : Int
  internalFormat : GLenum
  texels : List Nat
  deriving DecidableEq, Repr

/-- Driver state seen by this unit: the log of its calls, the binding of
GL_TEXTURE_2D, the level-0 image of each texture name, and the value of
GL_PACK_ALIGNMENT (1, 2, 4 or 8; 4 in a new context), which this unit reads
through glGetTexImage and never sets. -/
structure GLState where
  calls : List GLCall
  texture2D : GLuint
  images : List (GLuint × TexImage)
  packAlignment : Nat
  deriving DecidableEq, Repr

/-- Components per texel of the internal formats this unit allocates. -/
def components (internalformat : GLenum) : Nat :=
  if internalformat = GL_RGB32F then 3 else 1

def glGenTextures (drv : Driver) (gl : GLState) : GLuint × GLState :=
  let texture := drv.genTexture gl.calls
  (texture, { gl with calls := gl.calls ++ [GLCall.glGenTextures 1 texture] })

def glGenFramebuffers (drv : Driver) (gl : GLState) : GLuint × GLState :=
  let fbo := drv.genFramebuffer gl.calls
  (fbo, { gl with calls := gl.calls ++ [GLCall.glGenFramebuffers 1 fbo] })

def glBindTexture (gl : GLState) (target : GLenum) (texture : GLuint) : GLState :=
  { gl with
    calls := gl.calls ++ [GLCall.glBindTexture target texture]
    texture2D := if target = GL_TEXTURE_2D then texture else gl.texture2D }

def glTexParameteri (gl : GLState) (target pname param : GLenum) : GLState :=
  { gl with calls := gl.calls ++ [GLCall.glTexParameteri target pname param] }

/-- The call glTexImage2D with a null data pointer: the bound texture gets a
new image of undefined contents; a negative size is an error of the driver and
changes no image. -/
def glTexImage2D (drv : Driver) (gl : GLState) (target : GLenum) (level : Int)
    (internalformat : GLenum) (width height border : Int) (format type : GLenum) : GLState :=
  let calls := gl.calls ++
    [GLCall.glTexImage2D target level internalformat width height border format type]
  if 0 ≤ width ∧ 0 ≤ height then
    { gl with
      calls := calls
      images := (gl.texture2D,
        { width := width, height := height, internalFormat := internalformat,
          texels := (List.range ((width * height).toNat * components internalformat)).map
            (drv.undefinedTexel gl.calls) }) :: gl.images }
  else { gl with calls := calls }

/-- The call glDeleteTextures on one name: the name 0 and names without a
texture are ignored; a deleted texture that is bound leaves the binding at 0. -/
def glDeleteTextures (gl : GLState) (texture : GLuint) : GLState :=
  { gl with
    calls := gl.calls ++ [GLCall.glDeleteTextures 1 texture]
    texture2D := if texture ≠ 0 ∧ gl.texture2D = texture then 0 else gl.texture2D
    images := if texture = 0 then gl.images else gl.images.filter (fun e => e.1 ≠ texture) }

def glBindFramebuffer (gl : GLState) (target : GLenum) (framebuffer : GLuint) : GLState :=
  { gl with calls := gl.calls ++ [GLCall.glBindFramebuffer target framebuffer] }

def glDeleteFramebuffers (gl : GLState) (framebuffer : GLuint) : GLState :=
  { gl with calls := gl.calls ++ [GLCall.glDeleteFramebuffers 1 framebuffer] }

def glFramebufferTexture2D (gl : GLState) (target attachment textarget : GLenum)
    (texture : GLuint) (level : Int) : GLState :=
  { gl with calls := gl.calls ++
      [GLCall.glFramebufferTexture2D target attachment textarget texture level] }

def glCheckFramebufferStatus (drv : Driver) (gl : GLState) (target : GLenum) : GLenum × GLState :=
  let status := drv.checkFramebufferStatus gl.calls
  (status, { gl with calls := gl.calls ++ [GLCall.glCheckFramebufferStatus target status] })

def glDrawBuffers (gl : GLState) (n : Nat) (bufs : List GLenum) : GLState :=
  { gl with calls := gl.calls ++ [GLCall.glDrawBuffers n bufs] }

/-! ## The object -/

/-- How a call can stop the program. -/
inductive Failure where
  | check
  | assertion
  | cvException
  | memoryFault
  deriving DecidableEq, Repr

/-- Data members of the class, as the member functions use them (the header
is not among the sources). -/
structure CustomFrameBuffer where
  needs_cleanup : Bool
  image_width : Int
  image_height : Int
  render_depth : Bool
  color_tex : GLuint
  depth_tex : GLuint
  normals_tex : GLuint
  framebuffer : GLuint
  deriving DecidableEq, Repr

/-- The object, the driver and the lines written to the error stream. -/
structure World where
  self : CustomFrameBuffer
  gl : GLState
  cerr : List String
  deriving DecidableEq, Repr

/-- Outcome of a member function: the world it leaves, or the failure that
stopped it together with the world at that point. -/
abbrev Outcome := Except (Failure × World) World

/-- Modelled from the spec: the macro CHECK of util/mylogger.h, which is not
among the sources.  The spec has init fail with a fatal assertion when the
object is already initialized, so a false condition stops the program. -/
def CHECK (cond : Bool) (w : World) : Outcome :=
  if cond then .ok w else .error (Failure.check, w)

/-- The assert of the C library, enabled. -/
def assert (cond : Bool) (w : World) : Outcome :=
  if cond then .ok w else .error (Failure.assertion, w)

namespace CustomFrameBuffer

/-- The default constructor sets needs_cleanup and leaves every other member
as it finds it: junk is the storage the object is built in. -/
def new (junk : CustomFrameBuffer) : CustomFrameBuffer :=
  { junk with needs_cleanup := false }

def ready (self : CustomFrameBuffer) : Bool :=
  self.needs_cleanup

def bind (w : World) : World :=
  let gl := glBindFramebuffer w.gl GL_FRAMEBUFFER w.self.framebuffer
  if w.self.render_depth then
    { w with gl := glDrawBuffers gl 2 [GL_COLOR_ATTACHMENT0, GL_COLOR_ATTACHMENT1] }
  else { w with gl := gl }

def unbind (w : World) : World :=
  { w with gl := glBindFramebuffer w.gl GL_FRAMEBUFFER 0 }

def create_color_attachment (drv : Driver) (gl : GLState) (image_width image_height : Int) :
    GLuint × GLState :=
  let gen := glGenTextures drv gl
  let tex_screen := gen.1
  let gl := glBindTexture gen.2 GL_TEXTURE_2D tex_screen
  let gl := glTexParameteri gl GL_TEXTURE_2D GL_TEXTURE_WRAP_S GL_CLAMP_TO_EDGE
  let gl := glTexParameteri gl GL_TEXTURE_2D GL_TEXTURE_WRAP_T GL_CLAMP_TO_EDGE
  let gl := glTexParameteri gl GL_TEXTURE_2D GL_TEXTURE_MIN_FILTER GL_NEAREST
  let gl := glTexParameteri gl GL_TEXTURE_2D GL_TEXTURE_MAG_FILTER GL_NEAREST
  let gl := glTexImage2D drv gl GL_TEXTURE_2D 0 GL_R16UI image_width image_height 0
    GL_RED_INTEGER GL_UNSIGNED_SHORT
  (tex_screen, gl)

def create_depth_attachment (drv : Driver) (gl : GLState) (image_width image_height : Int) :
    GLuint × GLState :=
  let gen := glGenTextures drv gl
  let texture := gen.1
  let gl := glBindTexture gen.2 GL_TEXTURE_2D texture
  let gl := glTexParameteri gl GL_TEXTURE_2D GL_TEXTURE_WRAP_S GL_CLAMP_TO_EDGE
  let gl := glTexParameteri gl GL_TEXTURE_2D GL_TEXTURE_WRAP_T GL_CLAMP_TO_EDGE
  let gl := glTexParameteri gl GL_TEXTURE_2D GL_TEXTURE_MIN_FILTER GL_NEAREST
  let gl := glTexParameteri gl GL_TEXTURE_2D GL_TEXTURE_MAG_FILTER GL_NEAREST
  let gl := glTexImage2D drv gl GL_TEXTURE_2D 0 GL_R16UI image_width image_height 0
    GL_RED_INTEGER GL_UNSIGNED_SHORT
  (texture, gl)

def create_normals_attachment (drv : Driver) (gl : GLState) (image_width image_height : Int) :
    GLuint × GLState :=
  let gen := glGenTextures drv gl
  let texture := gen.1
  let gl := glBindTexture gen.2 GL_TEXTURE_2D texture
  let gl := glTexParameteri gl GL_TEXTURE_2D GL_TEXTURE_WRAP_S GL_CLAMP_TO_EDGE
  let gl := glTexParameteri gl GL_TEXTURE_2D GL_TEXTURE_WRAP_T GL_CLAMP_TO_EDGE
  let gl := glTexParameteri gl GL_TEXTURE_2D GL_TEXTURE_MIN_FILTER GL_NEAREST
  let gl := glTexParameteri gl GL_TEXTURE_2D GL_TEXTURE_MAG_FILTER GL_NEAREST
  let gl := glTexImage2D drv gl GL_TEXTURE_2D 0 GL_RGB32F image_width image_height 0
    GL_RGB GL_FLOAT
  (texture, gl)

/-- Reads the members color_tex, render_depth and depth_tex; writes the driver
and, when the framebuffer is incomplete, one line on the error stream. -/
def create_framebuffer (drv : Driver) (w : World) : GLuint × World :=
  let gen := glGenFramebuffers drv w.gl
  let fbo := gen.1
  let gl := glBindFramebuffer gen.2 GL_FRAMEBUFFER_EXT fbo
  let gl := glFramebufferTexture2D gl GL_FRAMEBUFFER GL_COLOR_ATTACHMENT0 GL_TEXTURE_2D
    w.self.color_tex 0
  let gl := if w.self.render_depth then
      glFramebufferTexture2D gl GL_FRAMEBUFFER GL_COLOR_ATTACHMENT1 GL_TEXTURE_2D
        w.self.depth_tex 0
    else gl
  let st := glCheckFramebufferStatus drv gl GL_FRAMEBUFFER
  let cerr := if st.1 ≠ GL_FRAMEBUFFER_COMPLETE then w.cerr ++ ["Framebuffer not OK."] else w.cerr
  let gl := glBindFramebuffer st.2 GL_FRAMEBUFFER 0
  (fbo, { w with gl := gl, cerr := cerr })

/-- The statements of init after its CHECK. -/
def initBody (drv : Driver) (w : World) (image_width image_height : Int) (render_depth : Bool) :
    World :=
  let w := { w with self := { w.self with image_width := image_width } }
  let w := { w with self := { w.self with image_height := image_height } }
  let w := { w with self := { w.self with render_depth := render_depth } }
  let c := create_color_attachment drv w.gl image_width image_height
  let w := { w with self := { w.self with color_tex := c.1 }, gl := c.2 }
  let w := if render_depth then
      let d := create_depth_attachment drv w.gl image_width image_height
      { w with self := { w.self with depth_tex := d.1 }, gl := d.2 }
    else w
  let f := create_framebuffer drv w
  let w := { f.2 with self := { f.2.self with framebuffer := f.1 } }
  { w with self := { w.self with needs_cleanup := true } }

def init (drv : Driver) (w : World) (image_width image_height : Int) (render_depth : Bool) :
    Outcome :=
  match CHECK (w.self.needs_cleanup == false) w with
  | .error e => .error e
  | .ok w => .ok (initBody drv w image_width image_height render_depth)

/-- The statements of cleanup after its assert. -/
def cleanupBody (w : World) : World :=
  let gl := glDeleteTextures w.gl w.self.color_tex
  let gl := if w.self.render_depth then glDeleteTextures gl w.self.depth_tex else gl
  let gl := glBindFramebuffer gl GL_FRAMEBUFFER_EXT 0
  let gl := glDeleteFramebuffers gl w.self.framebuffer
  { w with self := { w.self with needs_cleanup := false }, gl := gl }

def cleanup (w : World) : Outcome :=
  match assert (w.self.needs_cleanup == true) w with
  | .error e => .error e
  | .ok w => .ok (cleanupBody w)

/-- The constructor with three arguments: needs_cleanup is set, then init runs. -/
def newInit (drv : Driver) (junk : CustomFrameBuffer) (gl : GLState) (cerr : List String)
    (image_width image_height : Int) (render_depth : Bool) : Outcome :=
  init drv { self := { junk with needs_cleanup := false }, gl := gl, cerr := cerr }
    image_width image_height render_depth

/-- The destructor. -/
def destroy (w : World) : Outcome :=
  if w.self.needs_cleanup then cleanup w else .ok w

end CustomFrameBuffer

/-! ## Reading a texture back -/

/-- The low k bytes of a value, least significant first. -/
def bytesLE : Nat → Nat → List Nat
  | 0, _ => []
  | k + 1, v => v % 256 :: bytesLE k (v / 256)

/-- Every component written as size bytes. -/
def encode (size : Nat) : List Nat → List Nat
  | [] => []
  | v :: vs => bytesLE size v ++ encode size vs

/-- The bytes of one component as glGetTexImage writes it, for the two
combinations of stored and requested format that copy the components
unchanged; none where the driver raises an error and writes nothing (an
integer image asked for in a non-integer format, and the reverse). -/
def componentSize (img : TexImage) (format type : GLenum) : Option Nat :=
  if img.internalFormat = GL_R16UI ∧ format = GL_RED_INTEGER ∧ type = GL_UNSIGNED_SHORT then
    some 2
  else if img.internalFormat = GL_RGB32F ∧ format = GL_RGB ∧ type = GL_FLOAT then
    some 4
  else none

/-- The distance in bytes from the start of one row to the start of the next
in the memory glGetTexImage writes: the size of a row rounded up to a
multiple of GL_PACK_ALIGNMENT. -/
def packStride (rowBytes alignment : Nat) : Nat :=
  if alignment = 0 then rowBytes else (rowBytes + alignment - 1) / alignment * alignment

/-- The write of a number of rows of rowBytes bytes, taken in order from
bytes, into the buffer buf, every row starting stride bytes after the one
before.  The bytes between the end of a row and the start of the next are left
as they are and the last row is not padded.  The result is the buffer after
the write, or none when a row does not fit in what is left of the buffer. -/
def packRows (rowBytes stride : Nat) : Nat → List Nat → List Nat → Option (List Nat)
  | 0, _, buf => some buf
  | n + 1, bytes, buf =>
    if n = 0 then
      if rowBytes ≤ buf.length then
        some (bytes.take rowBytes ++ buf.drop (bytes.take rowBytes).length)
      else none
    else if stride ≤ buf.length then
      (packRows rowBytes stride n (bytes.drop rowBytes) (buf.drop stride)).map
        (fun rest =>
          bytes.take rowBytes ++ (buf.take stride).drop (bytes.take rowBytes).length ++ rest)
    else none

/-- The call glGetTexImage on the texture bound to GL_TEXTURE_2D, writing at
pixels, the bytes of the destination buffer.  The rows of the image are
written one after the other, each starting at a multiple of the pack stride
of the current GL_PACK_ALIGNMENT; the other pack parameters have their initial
value 0.  The driver does not know the size of the buffer: the result is the
buffer after the write, or none when the write runs past its end.  Where the
bound texture has no image or the formats do not go together the driver
raises an error and writes nothing. -/
def glGetTexImage (gl : GLState) (target : GLenum) (level : Int) (format type : GLenum)
    (pixels : List Nat) : Option (List Nat) × GLState :=
  let gl2 := { gl with calls := gl.calls ++ [GLCall.glGetTexImage target level format type] }
  match gl.images.lookup gl.texture2D with
  | none => (some pixels, gl2)
  | some img =>
    match componentSize img format type with
    | none => (some pixels, gl2)
    | some size =>
      let rowBytes := img.width.toNat * components img.internalFormat * size
      (packRows rowBytes (packStride rowBytes gl.packAlignment) img.height.toNat
        (encode size img.texels) pixels, gl2)

/-! ## Images of the image library -/

/-- Header and bytes of a cv::Mat of two dimensions; data is empty exactly
when the data pointer is null. -/
structure Mat where
  rows : Int
  cols : Int
  type : Nat
  data : List Nat
  deriving DecidableEq, Repr

namespace Mat

/-- A default-constructed image. -/
def default : Mat := { rows := 0, cols := 0, type := 0, data := [] }

def depth (m : Mat) : Nat := m.type % 8

def channels (m : Mat) : Nat := m.type / 8 + 1

/-- Bytes of one channel of one pixel, by depth. -/
def elemSize1 (m : Mat) : Nat :=
  match m.type % 8 with
  | 0 => 1
  | 1 => 1
  | 2 => 2
  | 3 => 2
  | 4 => 4
  | 5 => 4
  | 6 => 8
  | _ => 0

def empty (m : Mat) : Bool :=
  m.data.isEmpty || m.rows * m.cols == 0

/-- The constructor cv::Mat(rows, cols, type, cv::Scalar(0)): a negative size
raises an exception. -/
def create (rows cols : Int) (type : Nat) : Except Failure Mat :=
  if rows < 0 ∨ cols < 0 then .error Failure.cvException
  else
    let hdr : Mat := { rows := rows, cols := cols, type := type, data := [] }
    .ok { hdr with data := List.replicate ((rows * cols).toNat * hdr.channels * hdr.elemSize1) 0 }

/-- The 16-bit values held by a buffer of bytes. -/
def u16s : List Nat → List Nat
  | a :: b :: rest => (a + 256 * b) :: u16s rest
  | _ => []

/-- The call src.convertTo(dst, CV_8UC1, 1) on a source of depth CV_16U (the
scratch buffer, its only source in this unit): same size and channels, every
value saturated to 8 bits. -/
def convertTo (src : Mat) : Mat :=
  { rows := src.rows, cols := src.cols, type := 8 * (src.type / 8),
    data := (u16s src.data).map (fun v => min v 255) }

/-- For each of n pixels, the first channel of src (scn channels of esz bytes)
written over the first channel of dst (dcn channels). -/
def copyChannel (esz scn dcn : Nat) : Nat → List Nat → List Nat → List Nat
  | 0, _, dst => dst
  | n + 1, src, dst =>
    (src.take esz ++ (dst.take (dcn * esz)).drop esz) ++
      copyChannel esz scn dcn n (src.drop (scn * esz)) (dst.drop (dcn * esz))

/-- The call cv::mixChannels(&src, 1, &dst, 1, from_to, 1) with from_to = {0, 0}:
the depths must agree and, when both images have data, so must the sizes, or
an exception is raised; data on one side only is read or written through a
null pointer. -/
def mixChannels (src dst : Mat) : Except Failure Mat :=
  if src.depth ≠ dst.depth then .error Failure.cvException
  else if src.data.isEmpty ∧ dst.data.isEmpty then .ok dst
  else if src.data.isEmpty ∨ dst.data.isEmpty then .error Failure.memoryFault
  else if src.rows ≠ dst.rows ∨ src.cols ≠ dst.cols then .error Failure.cvException
  else
    let n := (dst.rows * dst.cols).toNat
    .ok { dst with data := copyChannel dst.elemSize1 src.channels dst.channels n src.data dst.data }

end Mat

namespace CustomFrameBuffer

/-- The statements of fetch_color_attachment after its two allocations: the
readback into the scratch buffer, the conversion to 8 bits and the channel
copy into the image. -/
def fetchColorRead (self : CustomFrameBuffer) (gray_16u : Mat) (gl : GLState) (image : Mat) :
    Mat × Except Failure (Mat × GLState) :=
  let gl := glBindTexture gl GL_TEXTURE_2D self.color_tex
  let got := glGetTexImage gl GL_TEXTURE_2D 0 GL_RED_INTEGER GL_UNSIGNED_SHORT gray_16u.data
  match got.1 with
  | none => (gray_16u, .error Failure.memoryFault)
  | some data =>
    let gray_16u := { gray_16u with data := data }
    let gl := glBindTexture got.2 GL_TEXTURE_2D 0
    let gray_8u := gray_16u.convertTo
    match Mat.mixChannels gray_8u image with
    | .error e => (gray_16u, .error e)
    | .ok image => (gray_16u, .ok (image, gl))

/-- The member fetch_color_attachment.  Its function-local static gray_16u is
state of the whole process: it comes in as an argument and goes out as the
first component, also when the call stops (after a memory fault the C++
program has no defined state; the header is then reported as it was). -/
def fetch_color_attachment (self : CustomFrameBuffer) (gray_16u : Mat) (gl : GLState)
    (image : Mat) : Mat × Except Failure (Mat × GLState) :=
  match (if gray_16u.empty then Mat.create self.image_height self.image_width CV_16UC1
         else .ok gray_16u) with
  | .error e => (gray_16u, .error e)
  | .ok gray_16u =>
    match (if image.empty then Mat.create self.image_height self.image_width CV_8UC3
           else .ok image) with
    | .error e => (gray_16u, .error e)
    | .ok image => fetchColorRead self gray_16u gl image

def fetch_depth_attachment (self : CustomFrameBuffer) (gl : GLState) (image : Mat) :
    Except Failure (Mat × GLState) :=
  match (if image.empty then Mat.create self.image_height self.image_width CV_16UC1
         else .ok image) with
  | .error e => .error e
  | .ok image =>
    let gl := glBindTexture gl GL_TEXTURE_2D self.depth_tex
    let got := glGetTexImage gl GL_TEXTURE_2D 0 GL_RED_INTEGER GL_UNSIGNED_SHORT image.data
    match got.1 with
    | none => .error Failure.memoryFault
    | some data => .ok ({ image with data := data }, glBindTexture got.2 GL_TEXTURE_2D 0)

def fetch_normals_attachment (self : CustomFrameBuffer) (gl : GLState) (image : Mat) :
    Except Failure (Mat × GLState) :=
  match (if image.empty then Mat.create self.image_height self.image_width CV_32FC3
         else .ok image) with
  | .error e => .error e
  | .ok image =>
    let gl := glBindTexture gl GL_TEXTURE_2D self.normals_tex
    let got := glGetTexImage gl GL_TEXTURE_2D 0 GL_RGB GL_FLOAT image.data
    match got.1 with
    | none => .error Failure.memoryFault
    | some data => .ok ({ image with data := data }, glBindTexture got.2 GL_TEXTURE_2D 0)

end CustomFrameBuffer

/-! ## Lifetime of an object -/

/-- A lifecycle call made by the owner of the object. -/
inductive Op where
  | init (image_width image_height : Int) (render_depth : Bool)
  | cleanup
  deriving DecidableEq, Repr

def step (drv : Driver) (w : World) : Op → Outcome
  | Op.init image_width image_height render_depth =>
    CustomFrameBuffer.init drv w image_width image_height render_depth
  | Op.cleanup => CustomFrameBuffer.cleanup w

/-- The calls in order, stopping at the first that fails. -/
def run (drv : Driver) : List Op → World → Outcome
  | [], w => .ok w
  | op :: ops, w =>
    match step drv w op with
    | .error e => .error e
    | .ok w2 => run drv ops w2

/-- Names obtained from the driver and not yet given back to it. -/
structure Ledger where
  textures : List GLuint
  framebuffers : List GLuint
  deriving DecidableEq, Repr

namespace Ledger

/-- One call entered in the ledger: a generated name is added, a deleted name
is struck off once; none when the deleted name is not on the ledger, that is,
was never obtained or has been deleted already. -/
def record (l : Ledger) : GLCall → Option Ledger
  | GLCall.glGenTextures _ t => some { l with textures := t :: l.textures }
  | GLCall.glDeleteTextures _ t =>
    if t ∈ l.textures then some { l with textures := l.textures.erase t } else none
  | GLCall.glGenFramebuffers _ f => some { l with framebuffers := f :: l.framebuffers }
  | GLCall.glDeleteFramebuffers _ f =>
    if f ∈ l.framebuffers then some { l with framebuffers := l.framebuffers.erase f } else none
  | _ => some l

/-- A sequence of calls entered in the ledger. -/
def audit : Ledger → List GLCall → Option Ledger
  | l, [] => some l
  | l, c :: cs => (l.record c).bind (fun l2 => audit l2 cs)

end Ledger

/-- The textures generated by a sequence of calls, in order. -/
def generatedTextures : List GLCall → List GLuint
  | [] => []
  | GLCall.glGenTextures _ t :: cs => t :: generatedTextures cs
  | _ :: cs => generatedTextures cs

/-- The textures a sequence of calls asks the driver to delete, in order. -/
def deletedTextures : List GLCall → List GLuint
  | [] => []
  | GLCall.glDeleteTextures _ t :: cs => t :: deletedTextures cs
  | _ :: cs => deletedTextures cs

/-- The framebuffers generated by a sequence of calls, in order. -/
def generatedFramebuffers : List GLCall → List GLuint
  | [] => []
  | GLCall.glGenFramebuffers _ f :: cs => f :: generatedFramebuffers cs
  | _ :: cs => generatedFramebuffers cs

/-- The framebuffers a sequence of calls asks the driver to delete, in order. -/
def deletedFramebuffers : List GLCall → List GLuint
  | [] => []
  | GLCall.glDeleteFramebuffers _ f :: cs => f :: deletedFramebuffers cs
  | _ :: cs => deletedFramebuffers cs

/-- The names an object holds: those of its last init while needs_cleanup is
true. -/
def held (self : CustomFrameBuffer) : Ledger :=
  if self.needs_cleanup then
    { textures := if self.render_depth then [self.depth_tex, self.color_tex] else [self.color_tex]
      framebuffers := [self.framebuffer] }
  else { textures := [], framebuffers := [] }

/-- The calls made since start balance to the names the object holds. -/
def Balanced (start : GLState) (w : World) : Prop :=
  ∃ cs, w.gl.calls = start.calls ++ cs ∧
    Ledger.audit { textures := [], framebuffers := [] } cs = some (held w.self)

/-! ## Calls of fetch_color_attachment in one process -/

/-- One call of fetch_color_attachment: the instance it is made on, the driver
at that moment and the image the caller passes. -/
structure FetchCall where
  self : CustomFrameBuffer
  gl : GLState
  image : Mat

/-- The scratch buffer after a sequence of calls, from its state before them. -/
def scratchAfter : Mat → List FetchCall → Mat
  | gray_16u, [] => gray_16u
  | gray_16u, c :: cs =>
    scratchAfter (CustomFrameBuffer.fetch_color_attachment c.self gray_16u c.gl c.image).1 cs

/-- Number of pixels of an image of this height and width. -/
def pixels (image_height image_width : Int) : Nat :=
  (image_height * image_width).toNat

/-! ## Concrete drivers and states used to exercise the definitions -/

/-- A driver that numbers names by the calls made so far and reports the
framebuffer complete. -/
def countingDriver : Driver :=
  { genTexture := fun calls => calls.length + 1
    genFramebuffer := fun calls => calls.length + 1
    checkFramebufferStatus := fun _ => GL_FRAMEBUFFER_COMPLETE
    undefinedTexel := fun _ i => 300 + i }

/-- A driver that reports every framebuffer incomplete. -/
def incompleteDriver : Driver :=
  { countingDriver with checkFramebufferStatus := fun _ => 0x8CD6 }

/-- The driver of a new context, before any call of this unit. -/
def freshGL : GLState := { calls := [], texture2D := 0, images := [], packAlignment := 4 }

/-- Storage of an object before its constructor runs. -/
def junkObject : CustomFrameBuffer :=
  { needs_cleanup := true, image_width := -7, image_height := 9, render_depth := true,
    color_tex := 41, depth_tex := 42, normals_tex := 43, framebuffer := 44 }

/-- A default-constructed object in a fresh process. -/
def freshWorld : World :=
  { self := CustomFrameBuffer.new junkObject, gl := freshGL, cerr := [] }

/-! ## The calls a lifecycle step issues -/

/-- The calls of create_color_attachment and of create_depth_attachment when
the driver returns the name texture. -/
def attachmentCalls (texture : GLuint) (image_width image_height : Int) : List GLCall :=
  [GLCall.glGenTextures 1 texture,
   GLCall.glBindTexture GL_TEXTURE_2D texture,
   GLCall.glTexParameteri GL_TEXTURE_2D GL_TEXTURE_WRAP_S GL_CLAMP_TO_EDGE,
   GLCall.glTexParameteri GL_TEXTURE_2D GL_TEXTURE_WRAP_T GL_CLAMP_TO_EDGE,
   GLCall.glTexParameteri GL_TEXTURE_2D GL_TEXTURE_MIN_FILTER GL_NEAREST,
   GLCall.glTexParameteri GL_TEXTURE_2D GL_TEXTURE_MAG_FILTER GL_NEAREST,
   GLCall.glTexImage2D GL_TEXTURE_2D 0 GL_R16UI image_width image_height 0
     GL_RED_INTEGER GL_UNSIGNED_SHORT]

/-- The calls of cleanup on an object with these members. -/
def cleanupCalls (self : CustomFrameBuffer) : List GLCall :=
  GLCall.glDeleteTextures 1 self.color_tex ::
    ((if self.render_depth then [GLCall.glDeleteTextures 1 self.depth_tex] else []) ++
      [GLCall.glBindFramebuffer GL_FRAMEBUFFER_EXT 0,
       GLCall.glDeleteFramebuffers 1 self.framebuffer])

/-- The calls of init before the completeness check, when the driver returns
the names color, depth (asked for only with render_depth) and fbo. -/
def initCallsBefore (color depth fbo : GLuint) (image_width image_height : Int)
    (render_depth : Bool) : List GLCall :=
  attachmentCalls color image_width image_height ++
    ((if render_depth then attachmentCalls depth image_width image_height else []) ++
      ([GLCall.glGenFramebuffers 1 fbo,
        GLCall.glBindFramebuffer GL_FRAMEBUFFER_EXT fbo,
        GLCall.glFramebufferTexture2D GL_FRAMEBUFFER GL_COLOR_ATTACHMENT0 GL_TEXTURE_2D color 0] ++
       (if render_depth then
          [GLCall.glFramebufferTexture2D GL_FRAMEBUFFER GL_COLOR_ATTACHMENT1 GL_TEXTURE_2D depth 0]
        else [])))

/-- All the calls of init, the completeness check answering status. -/
def initCalls (color depth fbo : GLuint) (status : GLenum) (image_width image_height : Int)
    (render_depth : Bool) : List GLCall :=
  initCallsBefore color depth fbo image_width image_height render_depth ++
    [GLCall.glCheckFramebufferStatus GL_FRAMEBUFFER status,
     GLCall.glBindFramebuffer GL_FRAMEBUFFER 0]

/-- Whether a call allocates the storage of a texture. -/
def isTexImage : GLCall → Bool
  | GLCall.glTexImage2D _ _ _ _ _ _ _ _ => true
  | _ => false

/-- Whether a call attaches a texture to a framebuffer. -/
def isAttach : GLCall → Bool
  | GLCall.glFramebufferTexture2D _ _ _ _ _ => true
  | _ => false

/-- Whether a call configures the draw targets. -/
def isDrawBuffers : GLCall → Bool
  | GLCall.glDrawBuffers _ _ => true
  | _ => false

/-- The calls a world has seen since an earlier state of the driver. -/
def callsSince (before : GLState) (w : World) : List GLCall :=
  w.gl.calls.drop before.calls.length

/-- A first object of the process: width 4, height 4, no depth. -/
def firstWorld : World := CustomFrameBuffer.initBody countingDriver freshWorld 4 4 false

/-- A second object of the same process, initialized after the first: width 2,
height 2, no depth. -/
def secondWorld : World :=
  CustomFrameBuffer.initBody countingDriver
    { self := CustomFrameBuffer.new junkObject, gl := firstWorld.gl, cerr := firstWorld.cerr }
    2 2 false

/-- An object of width 2 and height 2 with depth. -/
def depthWorld : World := CustomFrameBuffer.initBody countingDriver freshWorld 2 2 true

/-- An object of width 4 and height 2 with depth. -/
def bandWorld : World := CustomFrameBuffer.initBody countingDriver freshWorld 4 2 true

/-- The driver of bandWorld after a rendering pass has written a pattern to
the color texture of its object. -/
def paintedGL : GLState :=
  { bandWorld.gl with
    images := (bandWorld.self.color_tex,
      { width := 4, height := 2, internalFormat := GL_R16UI,
        texels := [7, 300, 255, 65535, 0, 256, 254, 1000] }) :: bandWorld.gl.images }

/-- The object of bandWorld in a process where create_normals_attachment has
created a texture of width 4 and height 2 and the member normals_tex, which
init never writes, holds the name of that texture. -/
def normalsWorld : World :=
  { bandWorld with
    self := { bandWorld.self with
      normals_tex := (CustomFrameBuffer.create_normals_attachment countingDriver
        bandWorld.gl 4 2).1 }
    gl := (CustomFrameBuffer.create_normals_attachment countingDriver bandWorld.gl 4 2).2 }

/-- An object of width 3 and height 2 with depth, in a new context. -/
def oddWorld : World := CustomFrameBuffer.initBody countingDriver freshWorld 3 2 true

/-- An object of width 0 and height 5. -/
def flatWorld : World := CustomFrameBuffer.initBody countingDriver freshWorld 0 5 false

/-- An object of width 4 and height 4 initialized after that of flatWorld. -/
def wideWorld : World :=
  CustomFrameBuffer.initBody countingDriver
    { self := CustomFrameBuffer.new junkObject, gl := flatWorld.gl, cerr := flatWorld.cerr }
    4 4 false

/-! # Theorems -/

open CustomFrameBuffer

/-! ## What each driver call adds to the log -/

@[simp] theorem glGenTextures_calls (drv : Driver) (gl : GLState) :
    (glGenTextures drv gl).2.calls =
      gl.calls ++ [GLCall.glGenTextures 1 (glGenTextures drv gl).1] := rfl

@[simp] theorem glGenTextures_name (drv : Driver) (gl : GLState) :
    (glGenTextures drv gl).1 = drv.genTexture gl.calls := rfl

@[simp] theorem glGenFramebuffers_calls (drv : Driver) (gl : GLState) :
    (glGenFramebuffers drv gl).2.calls =
      gl.calls ++ [GLCall.glGenFramebuffers 1 (glGenFramebuffers drv gl).1] := rfl

@[simp] theorem glGenFramebuffers_name (drv : Driver) (gl : GLState) :
    (glGenFramebuffers drv gl).1 = drv.genFramebuffer gl.calls := rfl

@[simp] theorem glBindTexture_calls (gl : GLState) (target : GLenum) (texture : GLuint) :
    (glBindTexture gl target texture).calls =
      gl.calls ++ [GLCall.glBindTexture target texture] := rfl

@[simp] theorem glTexParameteri_calls (gl : GLState) (target pname param : GLenum) :
    (glTexParameteri gl target pname param).calls =
      gl.calls ++ [GLCall.glTexParameteri target pname param] := rfl

@[simp] theorem glTexImage2D_calls (drv : Driver) (gl : GLState) (target : GLenum) (level : Int)
    (internalformat : GLenum) (width height border : Int) (format type : GLenum) :
    (glTexImage2D drv gl target level internalformat width height border format type).calls =
      gl.calls ++
        [GLCall.glTexImage2D target level internalformat width height border format type] := by
  unfold glTexImage2D
  split <;> rfl

@[simp] theorem glDeleteTextures_calls (gl : GLState) (texture : GLuint) :
    (glDeleteTextures gl texture).calls = gl.calls ++ [GLCall.glDeleteTextures 1 texture] := rfl

@[simp] theorem glBindFramebuffer_calls (gl : GLState) (target : GLenum) (framebuffer : GLuint) :
    (glBindFramebuffer gl target framebuffer).calls =
      gl.calls ++ [GLCall.glBindFramebuffer target framebuffer] := rfl

@[simp] theorem glDeleteFramebuffers_calls (gl : GLState) (framebuffer : GLuint) :
    (glDeleteFramebuffers gl framebuffer).calls =
      gl.calls ++ [GLCall.glDeleteFramebuffers 1 framebuffer] := rfl

@[simp] theorem glFramebufferTexture2D_calls (gl : GLState) (target attachment textarget : GLenum)
    (texture : GLuint) (level : Int) :
    (glFramebufferTexture2D gl target attachment textarget texture level).calls =
      gl.calls ++ [GLCall.glFramebufferTexture2D target attachment textarget texture level] := rfl

@[simp] theorem glCheckFramebufferStatus_calls (drv : Driver) (gl : GLState) (target : GLenum) :
    (glCheckFramebufferStatus drv gl target).2.calls =
      gl.calls ++ [GLCall.glCheckFramebufferStatus target (drv.checkFramebufferStatus gl.calls)] :=
  rfl

@[simp] theorem glDrawBuffers_calls (gl : GLState) (n : Nat) (bufs : List GLenum) :
    (glDrawBuffers gl n bufs).calls = gl.calls ++ [GLCall.glDrawBuffers n bufs] := rfl

/-! ## The lifecycle -/

theorem init_ok_of_clear (drv : Driver) (w : World) (a b : Int) (d : Bool)
    (h : w.self.needs_cleanup = false) :
    init drv w a b d = .ok (initBody drv w a b d) := by
  simp [init, CHECK, h]

theorem init_error_of_set (drv : Driver) (w : World) (a b : Int) (d : Bool)
    (h : w.self.needs_cleanup = true) :
    init drv w a b d = .error (Failure.check, w) := by
  simp [init, CHECK, h]

theorem cleanup_ok_of_set (w : World) (h : w.self.needs_cleanup = true) :
    cleanup w = .ok (cleanupBody w) := by
  simp [cleanup, assert, h]

theorem cleanup_error_of_clear (w : World) (h : w.self.needs_cleanup = false) :
    cleanup w = .error (Failure.assertion, w) := by
  simp [cleanup, assert, h]

theorem initBody_needs_cleanup (drv : Driver) (w : World) (a b : Int) (d : Bool) :
    (initBody drv w a b d).self.needs_cleanup = true := by
  simp [initBody]

theorem initBody_render_depth (drv : Driver) (w : World) (a b : Int) (d : Bool) :
    (initBody drv w a b d).self.render_depth = d := by
  cases d <;> simp [initBody, create_framebuffer]

theorem initBody_size (drv : Driver) (w : World) (a b : Int) (d : Bool) :
    (initBody drv w a b d).self.image_width = a ∧
      (initBody drv w a b d).self.image_height = b := by
  cases d <;> simp [initBody, create_framebuffer]

theorem initBody_calls (drv : Driver) (w : World) (a b : Int) (d : Bool) :
    (initBody drv w a b d).gl.calls =
      w.gl.calls ++ initCalls (initBody drv w a b d).self.color_tex
        (initBody drv w a b d).self.depth_tex (initBody drv w a b d).self.framebuffer
        (drv.checkFramebufferStatus (w.gl.calls ++
          initCallsBefore (initBody drv w a b d).self.color_tex
            (initBody drv w a b d).self.depth_tex (initBody drv w a b d).self.framebuffer a b d))
        a b d := by
  cases d <;>
    simp [initBody, create_framebuffer, create_color_attachment, create_depth_attachment,
      initCalls, initCallsBefore, attachmentCalls]

theorem cleanupBody_calls (w : World) :
    (cleanupBody w).gl.calls = w.gl.calls ++ cleanupCalls w.self := by
  cases h : w.self.render_depth <;> simp [cleanupBody, cleanupCalls, h]

theorem cleanupBody_needs_cleanup (w : World) :
    (cleanupBody w).self.needs_cleanup = false := by
  simp [cleanupBody]

theorem callsSince_append (before : GLState) (w : World) (cs : List GLCall)
    (h : w.gl.calls = before.calls ++ cs) : callsSince before w = cs := by
  simp [callsSince, h]

theorem callsSince_initBody (drv : Driver) (w : World) (a b : Int) (d : Bool) :
    callsSince w.gl (initBody drv w a b d) =
      initCalls (initBody drv w a b d).self.color_tex
        (initBody drv w a b d).self.depth_tex (initBody drv w a b d).self.framebuffer
        (drv.checkFramebufferStatus (w.gl.calls ++
          initCallsBefore (initBody drv w a b d).self.color_tex
            (initBody drv w a b d).self.depth_tex (initBody drv w a b d).self.framebuffer a b d))
        a b d :=
  callsSince_append _ _ _ (initBody_calls drv w a b d)

theorem callsSince_cleanupBody (w : World) :
    callsSince w.gl (cleanupBody w) = cleanupCalls w.self :=
  callsSince_append _ _ _ (cleanupBody_calls w)

theorem cleanupBody_initBody_members (drv : Driver) (w : World) (a b : Int) (d : Bool) :
    cleanupCalls (initBody drv w a b d).self =
      GLCall.glDeleteTextures 1 (initBody drv w a b d).self.color_tex ::
        ((if d then [GLCall.glDeleteTextures 1 (initBody drv w a b d).self.depth_tex] else []) ++
          [GLCall.glBindFramebuffer GL_FRAMEBUFFER_EXT 0,
           GLCall.glDeleteFramebuffers 1 (initBody drv w a b d).self.framebuffer]) := by
  simp [cleanupCalls, initBody_render_depth]

/-- C1: for every width, height (positive or not) and render_depth flag, and for every driver,
hence for every answer of the completeness check, init on an uninitialized object succeeds and
leaves ready() true, and cleanup on the object so initialized succeeds and leaves ready() false. -/
theorem init_ready_then_cleanup_not_ready (drv : Driver) (w : World)
    (image_width image_height : Int) (render_depth : Bool)
    (h : w.self.needs_cleanup = false) :
    ∃ w1 w2, init drv w image_width image_height render_depth = .ok w1 ∧
      ready w1.self = true ∧ cleanup w1 = .ok w2 ∧ ready w2.self = false := by
  refine ⟨initBody drv w image_width image_height render_depth,
    cleanupBody (initBody drv w image_width image_height render_depth),
    init_ok_of_clear drv w _ _ _ h, initBody_needs_cleanup drv w _ _ _,
    cleanup_ok_of_set _ (initBody_needs_cleanup drv w _ _ _), cleanupBody_needs_cleanup _⟩

/-- Instance of C1 on a fresh object of 640 by 480 with depth, the driver reporting the
framebuffer incomplete. -/
theorem init_ready_then_cleanup_not_ready_witness :
    freshWorld.self.needs_cleanup = false ∧
    ∃ w1 w2, init incompleteDriver freshWorld 640 480 true = .ok w1 ∧
      ready w1.self = true ∧ cleanup w1 = .ok w2 ∧ ready w2.self = false :=
  ⟨rfl, init_ready_then_cleanup_not_ready incompleteDriver freshWorld 640 480 true rfl⟩

/-- C2: on an object whose needs_cleanup is true, which is what a successful init leaves and
only cleanup clears, init with any width, height and render_depth stops at its CHECK with the
object, the driver and the error stream exactly as they were: no member is written and no
driver call is made. -/
theorem init_twice_fails_at_check (drv : Driver) (w : World)
    (image_width image_height : Int) (render_depth : Bool)
    (h : w.self.needs_cleanup = true) :
    init drv w image_width image_height render_depth = .error (Failure.check, w) :=
  init_error_of_set drv w _ _ _ h

/-- Instance of C2: a first init of 4 by 4 succeeds, a second init of 8 by 2 on its result
stops at the CHECK. -/
theorem init_twice_fails_at_check_witness :
    (initBody countingDriver freshWorld 4 4 true).self.needs_cleanup = true ∧
    init countingDriver freshWorld 4 4 true = .ok (initBody countingDriver freshWorld 4 4 true) ∧
    init countingDriver (initBody countingDriver freshWorld 4 4 true) 8 2 false =
      .error (Failure.check, initBody countingDriver freshWorld 4 4 true) :=
  ⟨rfl, rfl, init_twice_fails_at_check countingDriver _ 8 2 false rfl⟩

/-- C3: on an object whose needs_cleanup is false, which is what the default constructor and
cleanup leave, cleanup stops at its assert with the object and the driver exactly as they
were: no deletion is issued. -/
theorem cleanup_without_init_fails_at_assert (w : World)
    (h : w.self.needs_cleanup = false) :
    cleanup w = .error (Failure.assertion, w) :=
  cleanup_error_of_clear w h

/-- Instance of C3 on an object that has been initialized and cleaned up once. -/
theorem cleanup_without_init_fails_at_assert_witness :
    (cleanupBody (initBody countingDriver freshWorld 4 4 true)).self.needs_cleanup = false ∧
    cleanup (cleanupBody (initBody countingDriver freshWorld 4 4 true)) =
      .error (Failure.assertion, cleanupBody (initBody countingDriver freshWorld 4 4 true)) :=
  ⟨rfl, cleanup_without_init_fails_at_assert _ rfl⟩

/-- C5: after init(width, height, d) on an uninitialized object, bind issues first
glBindFramebuffer(GL_FRAMEBUFFER, framebuffer) on the framebuffer name that init generated and
then, when d is true, exactly glDrawBuffers(2, [GL_COLOR_ATTACHMENT0, GL_COLOR_ATTACHMENT1]);
when d is false it issues nothing else, so no draw-target configuration at all. -/
theorem bind_after_init (drv : Driver) (w : World) (image_width image_height : Int) (d : Bool)
    (h : w.self.needs_cleanup = false) :
    ∃ w1, init drv w image_width image_height d = .ok w1 ∧
      generatedFramebuffers (callsSince w.gl w1) = [w1.self.framebuffer] ∧
      callsSince w1.gl (CustomFrameBuffer.bind w1) =
        GLCall.glBindFramebuffer GL_FRAMEBUFFER w1.self.framebuffer ::
          (if d then [GLCall.glDrawBuffers 2 [GL_COLOR_ATTACHMENT0, GL_COLOR_ATTACHMENT1]]
           else []) ∧
      (callsSince w1.gl (CustomFrameBuffer.bind w1)).countP isDrawBuffers = (if d then 1 else 0) := by
  refine ⟨initBody drv w image_width image_height d, init_ok_of_clear drv w _ _ _ h, ?_, ?_⟩
  · rw [callsSince_initBody]
    cases d <;> simp [initCalls, initCallsBefore, attachmentCalls, generatedFramebuffers]
  · have hb : (CustomFrameBuffer.bind (initBody drv w image_width image_height d)).gl.calls =
        (initBody drv w image_width image_height d).gl.calls ++
          (GLCall.glBindFramebuffer GL_FRAMEBUFFER
              (initBody drv w image_width image_height d).self.framebuffer ::
            (if d then [GLCall.glDrawBuffers 2 [GL_COLOR_ATTACHMENT0, GL_COLOR_ATTACHMENT1]]
             else [])) := by
      cases d <;> simp [CustomFrameBuffer.bind, initBody_render_depth]
    rw [callsSince_append _ _ _ hb]
    cases d <;> simp [isDrawBuffers]

/-- Instance of C5 on a fresh object of 640 by 480 with depth. -/
theorem bind_after_init_witness :
    freshWorld.self.needs_cleanup = false ∧
    ∃ w1, init countingDriver freshWorld 640 480 true = .ok w1 ∧
      generatedFramebuffers (callsSince freshWorld.gl w1) = [w1.self.framebuffer] ∧
      callsSince w1.gl (CustomFrameBuffer.bind w1) =
        GLCall.glBindFramebuffer GL_FRAMEBUFFER w1.self.framebuffer ::
          (if true then [GLCall.glDrawBuffers 2 [GL_COLOR_ATTACHMENT0, GL_COLOR_ATTACHMENT1]]
           else []) ∧
      (callsSince w1.gl (CustomFrameBuffer.bind w1)).countP isDrawBuffers = (if true then 1 else 0) :=
  ⟨rfl, bind_after_init countingDriver freshWorld 640 480 true rfl⟩

/-- C6: init(width, height, d) on an uninitialized object issues exactly these calls, in this
order: the allocation of the color texture with glTexImage2D(.., width, height, ..); when d is
true the allocation of the depth texture with the same size; then glGenFramebuffers and the
binding of the new framebuffer; the attachment of the color texture just generated to
GL_COLOR_ATTACHMENT0; when d is true the attachment of the depth texture just generated to
GL_COLOR_ATTACHMENT1; then the completeness check and the unbinding.  So two textures are
allocated and two attachments made when d is true, one of each when d is false. -/
theorem init_allocates_and_attaches (drv : Driver) (w : World) (image_width image_height : Int)
    (d : Bool) (h : w.self.needs_cleanup = false) :
    ∃ w1 status, init drv w image_width image_height d = .ok w1 ∧
      callsSince w.gl w1 =
        attachmentCalls w1.self.color_tex image_width image_height ++
          ((if d then attachmentCalls w1.self.depth_tex image_width image_height else []) ++
            ([GLCall.glGenFramebuffers 1 w1.self.framebuffer,
              GLCall.glBindFramebuffer GL_FRAMEBUFFER_EXT w1.self.framebuffer,
              GLCall.glFramebufferTexture2D GL_FRAMEBUFFER GL_COLOR_ATTACHMENT0 GL_TEXTURE_2D
                w1.self.color_tex 0] ++
             ((if d then
                [GLCall.glFramebufferTexture2D GL_FRAMEBUFFER GL_COLOR_ATTACHMENT1 GL_TEXTURE_2D
                  w1.self.depth_tex 0]
               else []) ++
              [GLCall.glCheckFramebufferStatus GL_FRAMEBUFFER status,
               GLCall.glBindFramebuffer GL_FRAMEBUFFER 0]))) ∧
      generatedTextures (callsSince w.gl w1) =
        (if d then [w1.self.color_tex, w1.self.depth_tex] else [w1.self.color_tex]) ∧
      (callsSince w.gl w1).countP isTexImage = (if d then 2 else 1) ∧
      (callsSince w.gl w1).countP isAttach = (if d then 2 else 1) := by
  refine ⟨initBody drv w image_width image_height d,
    drv.checkFramebufferStatus (w.gl.calls ++
      initCallsBefore (initBody drv w image_width image_height d).self.color_tex
        (initBody drv w image_width image_height d).self.depth_tex
        (initBody drv w image_width image_height d).self.framebuffer image_width image_height d),
    init_ok_of_clear drv w _ _ _ h, ?_⟩
  rw [callsSince_initBody]
  cases d <;>
    simp [initCalls, initCallsBefore, attachmentCalls, generatedTextures, isTexImage, isAttach]

/-- Instance of C6 on a fresh object of 640 by 480 without depth. -/
theorem init_allocates_and_attaches_witness :
    freshWorld.self.needs_cleanup = false ∧
    ∃ w1 status, init countingDriver freshWorld 640 480 false = .ok w1 ∧
      callsSince freshWorld.gl w1 =
        attachmentCalls w1.self.color_tex 640 480 ++
          ((if false then attachmentCalls w1.self.depth_tex 640 480 else []) ++
            ([GLCall.glGenFramebuffers 1 w1.self.framebuffer,
              GLCall.glBindFramebuffer GL_FRAMEBUFFER_EXT w1.self.framebuffer,
              GLCall.glFramebufferTexture2D GL_FRAMEBUFFER GL_COLOR_ATTACHMENT0 GL_TEXTURE_2D
                w1.self.color_tex 0] ++
             ((if false then
                [GLCall.glFramebufferTexture2D GL_FRAMEBUFFER GL_COLOR_ATTACHMENT1 GL_TEXTURE_2D
                  w1.self.depth_tex 0]
               else []) ++
              [GLCall.glCheckFramebufferStatus GL_FRAMEBUFFER status,
               GLCall.glBindFramebuffer GL_FRAMEBUFFER 0]))) ∧
      generatedTextures (callsSince freshWorld.gl w1) =
        (if false then [w1.self.color_tex, w1.self.depth_tex] else [w1.self.color_tex]) ∧
      (callsSince freshWorld.gl w1).countP isTexImage = (if false then 2 else 1) ∧
      (callsSince freshWorld.gl w1).countP isAttach = (if false then 2 else 1) :=
  ⟨rfl, init_allocates_and_attaches countingDriver freshWorld 640 480 false rfl⟩

/-- C9: cleanup after init(width, height, d) issues exactly glDeleteTextures on the color
texture of that init, then, if and only if d is true, glDeleteTextures on its depth texture,
then glBindFramebuffer(GL_FRAMEBUFFER_EXT, 0), then glDeleteFramebuffers on its framebuffer,
and sets needs_cleanup to false: the textures and the framebuffer it deletes are, name for
name, those the init generated. -/
theorem cleanup_deletes_what_init_allocated (drv : Driver) (w : World)
    (image_width image_height : Int) (d : Bool) (h : w.self.needs_cleanup = false) :
    ∃ w1 w2, init drv w image_width image_height d = .ok w1 ∧ cleanup w1 = .ok w2 ∧
      callsSince w1.gl w2 =
        GLCall.glDeleteTextures 1 w1.self.color_tex ::
          ((if d then [GLCall.glDeleteTextures 1 w1.self.depth_tex] else []) ++
            [GLCall.glBindFramebuffer GL_FRAMEBUFFER_EXT 0,
             GLCall.glDeleteFramebuffers 1 w1.self.framebuffer]) ∧
      deletedTextures (callsSince w1.gl w2) = generatedTextures (callsSince w.gl w1) ∧
      deletedFramebuffers (callsSince w1.gl w2) = generatedFramebuffers (callsSince w.gl w1) ∧
      w2.self.needs_cleanup = false := by
  refine ⟨initBody drv w image_width image_height d,
    cleanupBody (initBody drv w image_width image_height d),
    init_ok_of_clear drv w _ _ _ h,
    cleanup_ok_of_set _ (initBody_needs_cleanup drv w _ _ _), ?_, ?_, ?_,
    cleanupBody_needs_cleanup _⟩
  · rw [callsSince_cleanupBody, cleanupBody_initBody_members]
  · rw [callsSince_cleanupBody, cleanupBody_initBody_members, callsSince_initBody]
    cases d <;>
      simp [initCalls, initCallsBefore, attachmentCalls, generatedTextures, deletedTextures]
  · rw [callsSince_cleanupBody, cleanupBody_initBody_members, callsSince_initBody]
    cases d <;>
      simp [initCalls, initCallsBefore, attachmentCalls, generatedFramebuffers,
        deletedFramebuffers]

/-- Instance of C9 on a fresh object of 640 by 480 with depth. -/
theorem cleanup_deletes_what_init_allocated_witness :
    freshWorld.self.needs_cleanup = false ∧
    ∃ w1 w2, init countingDriver freshWorld 640 480 true = .ok w1 ∧ cleanup w1 = .ok w2 ∧
      callsSince w1.gl w2 =
        GLCall.glDeleteTextures 1 w1.self.color_tex ::
          ((if true then [GLCall.glDeleteTextures 1 w1.self.depth_tex] else []) ++
            [GLCall.glBindFramebuffer GL_FRAMEBUFFER_EXT 0,
             GLCall.glDeleteFramebuffers 1 w1.self.framebuffer]) ∧
      deletedTextures (callsSince w1.gl w2) = generatedTextures (callsSince freshWorld.gl w1) ∧
      deletedFramebuffers (callsSince w1.gl w2) =
        generatedFramebuffers (callsSince freshWorld.gl w1) ∧
      w2.self.needs_cleanup = false :=
  ⟨rfl, cleanup_deletes_what_init_allocated countingDriver freshWorld 640 480 true rfl⟩

/-! ## The ledger over a lifetime -/

theorem Ledger.audit_append (l : Ledger) (xs ys : List GLCall) :
    Ledger.audit l (xs ++ ys) = (Ledger.audit l xs).bind (fun l2 => Ledger.audit l2 ys) := by
  induction xs generalizing l with
  | nil => simp [Ledger.audit]
  | cons c cs ih =>
    simp only [List.cons_append, Ledger.audit]
    cases hrec : l.record c with
    | none => simp
    | some l2 => simp [ih]

theorem audit_initCalls (color depth fbo : GLuint) (status : GLenum) (a b : Int) (d : Bool) :
    Ledger.audit { textures := [], framebuffers := [] } (initCalls color depth fbo status a b d) =
      some { textures := if d then [depth, color] else [color], framebuffers := [fbo] } := by
  cases d <;>
    simp [initCalls, initCallsBefore, attachmentCalls, Ledger.audit, Ledger.record]

theorem audit_cleanupCalls (self : CustomFrameBuffer) (h : self.needs_cleanup = true) :
    Ledger.audit (held self) (cleanupCalls self) =
      some { textures := [], framebuffers := [] } := by
  cases hd : self.render_depth
  · simp [held, h, hd, cleanupCalls, Ledger.audit, Ledger.record]
  · by_cases hc : self.depth_tex = self.color_tex
    · simp [held, h, hd, cleanupCalls, Ledger.audit, Ledger.record, hc]
    · simp [held, h, hd, cleanupCalls, Ledger.audit, Ledger.record, hc, List.erase_cons]

theorem balanced_initBody (drv : Driver) (start : GLState) (w : World) (a b : Int) (d : Bool)
    (hw : Balanced start w) (h : w.self.needs_cleanup = false) :
    Balanced start (initBody drv w a b d) := by
  obtain ⟨cs, hcs, haudit⟩ := hw
  refine ⟨cs ++ callsSince w.gl (initBody drv w a b d), ?_, ?_⟩
  · rw [callsSince_initBody, initBody_calls, hcs, List.append_assoc]
  · rw [Ledger.audit_append, haudit, callsSince_initBody]
    simp only [Option.some_bind, held, h, Bool.false_eq_true, if_false]
    rw [audit_initCalls]
    simp [initBody_needs_cleanup, initBody_render_depth]

theorem balanced_cleanupBody (start : GLState) (w : World)
    (hw : Balanced start w) (h : w.self.needs_cleanup = true) :
    Balanced start (cleanupBody w) := by
  obtain ⟨cs, hcs, haudit⟩ := hw
  refine ⟨cs ++ cleanupCalls w.self, ?_, ?_⟩
  · rw [cleanupBody_calls, hcs, List.append_assoc]
  · rw [Ledger.audit_append, haudit]
    simp only [Option.some_bind]
    rw [audit_cleanupCalls _ h]
    simp [held, cleanupBody_needs_cleanup]

theorem balanced_run (drv : Driver) (start : GLState) (ops : List Op) (w0 w : World)
    (h0 : Balanced start w0) (hrun : run drv ops w0 = .ok w) : Balanced start w := by
  induction ops generalizing w0 with
  | nil =>
    simp only [run, Except.ok.injEq] at hrun
    exact hrun ▸ h0
  | cons op ops ih =>
    cases op with
    | init a b d =>
      cases hn : w0.self.needs_cleanup
      · have hs : step drv w0 (Op.init a b d) = .ok (initBody drv w0 a b d) :=
          init_ok_of_clear drv w0 a b d hn
        simp only [run, hs] at hrun
        exact ih _ (balanced_initBody drv start w0 a b d h0 hn) hrun
      · have hs : step drv w0 (Op.init a b d) = .error (Failure.check, w0) :=
          init_error_of_set drv w0 a b d hn
        simp [run, hs] at hrun
    | cleanup =>
      cases hn : w0.self.needs_cleanup
      · have hs : step drv w0 Op.cleanup = .error (Failure.assertion, w0) :=
          cleanup_error_of_clear w0 hn
        simp [run, hs] at hrun
      · have hs : step drv w0 Op.cleanup = .ok (cleanupBody w0) :=
          cleanup_ok_of_set w0 hn
        simp only [run, hs] at hrun
        exact ih _ (balanced_cleanupBody start w0 h0 hn) hrun

/-- C4: take a default-constructed object, any sequence of init and cleanup calls none of
which fails, and then the destructor.  The destructor succeeds; it is one cleanup (the calls of
one cleanup, no more) when the object is still initialized, and it changes nothing and calls
the driver not at all when the object is uninitialized.  Over the whole lifetime every
deletion strikes off a name generated earlier and not yet deleted, and no generated name is
left: each texture and framebuffer obtained by an init is deleted exactly once. -/
theorem destructor_cleans_up_once (drv : Driver) (junk : CustomFrameBuffer) (gl : GLState)
    (cerr : List String) (ops : List Op) (w : World)
    (hrun : run drv ops { self := CustomFrameBuffer.new junk, gl := gl, cerr := cerr } = .ok w) :
    ∃ w2, destroy w = .ok w2 ∧
      (w.self.needs_cleanup = true →
        destroy w = cleanup w ∧ callsSince w.gl w2 = cleanupCalls w.self) ∧
      (w.self.needs_cleanup = false → w2 = w) ∧
      w2.self.needs_cleanup = false ∧
      Ledger.audit { textures := [], framebuffers := [] } (callsSince gl w2) =
        some { textures := [], framebuffers := [] } := by
  have hstart : Balanced gl { self := CustomFrameBuffer.new junk, gl := gl, cerr := cerr } :=
    ⟨[], by simp, by simp [Ledger.audit, held, CustomFrameBuffer.new]⟩
  have hw : Balanced gl w := balanced_run drv gl ops _ w hstart hrun
  cases hn : w.self.needs_cleanup
  · refine ⟨w, by simp [destroy, hn], by simp, by simp, hn, ?_⟩
    obtain ⟨cs, hcs, haudit⟩ := hw
    rw [callsSince_append gl w cs hcs, haudit]
    simp [held, hn]
  · have hd : destroy w = cleanup w := by simp [destroy, hn]
    refine ⟨cleanupBody w, by rw [hd, cleanup_ok_of_set w hn],
      fun _ => ⟨hd, callsSince_cleanupBody w⟩, by simp, cleanupBody_needs_cleanup w, ?_⟩
    obtain ⟨cs, hcs, haudit⟩ := balanced_cleanupBody gl w hw hn
    rw [callsSince_append gl _ cs hcs, haudit]
    simp [held, cleanupBody_needs_cleanup]

/-- Instance of C4: init with depth, cleanup, init without depth, then the destructor. -/
theorem destructor_cleans_up_once_witness :
    run countingDriver [Op.init 4 4 true, Op.cleanup, Op.init 8 2 false]
        { self := CustomFrameBuffer.new junkObject, gl := freshGL, cerr := [] } =
      .ok (initBody countingDriver
        (cleanupBody (initBody countingDriver freshWorld 4 4 true)) 8 2 false) ∧
    ∃ w2, destroy (initBody countingDriver
        (cleanupBody (initBody countingDriver freshWorld 4 4 true)) 8 2 false) = .ok w2 ∧
      ((initBody countingDriver
          (cleanupBody (initBody countingDriver freshWorld 4 4 true)) 8 2 false).self.needs_cleanup
          = true →
        destroy (initBody countingDriver
            (cleanupBody (initBody countingDriver freshWorld 4 4 true)) 8 2 false) =
          cleanup (initBody countingDriver
            (cleanupBody (initBody countingDriver freshWorld 4 4 true)) 8 2 false) ∧
        callsSince (initBody countingDriver
            (cleanupBody (initBody countingDriver freshWorld 4 4 true)) 8 2 false).gl w2 =
          cleanupCalls (initBody countingDriver
            (cleanupBody (initBody countingDriver freshWorld 4 4 true)) 8 2 false).self) ∧
      ((initBody countingDriver
          (cleanupBody (initBody countingDriver freshWorld 4 4 true)) 8 2 false).self.needs_cleanup
          = false →
        w2 = initBody countingDriver
          (cleanupBody (initBody countingDriver freshWorld 4 4 true)) 8 2 false) ∧
      w2.self.needs_cleanup = false ∧
      Ledger.audit { textures := [], framebuffers := [] } (callsSince freshGL w2) =
        some { textures := [], framebuffers := [] } :=
  ⟨rfl, destructor_cleans_up_once countingDriver junkObject freshGL []
    [Op.init 4 4 true, Op.cleanup, Op.init 8 2 false] _ rfl⟩

/-! ## Bytes -/

theorem bytesLE_length (k v : Nat) : (bytesLE k v).length = k := by
  induction k generalizing v with
  | zero => rfl
  | succ k ih => simp [bytesLE, ih]

theorem encode_length (k : Nat) (vs : List Nat) : (encode k vs).length = k * vs.length := by
  induction vs with
  | nil => simp [encode]
  | cons v vs ih => simp [encode, bytesLE_length, ih, Nat.mul_succ, Nat.add_comm]

theorem u16s_encode (vs : List Nat) (h : ∀ v ∈ vs, v < 65536) :
    Mat.u16s (encode 2 vs) = vs := by
  induction vs with
  | nil => rfl
  | cons v vs ih =>
    have hv : v < 65536 := h v (List.mem_cons_self _ _)
    have hvs : ∀ x ∈ vs, x < 65536 := fun x hx => h x (List.mem_cons_of_mem _ hx)
    have he : encode 2 (v :: vs) = v % 256 :: (v / 256 % 256) :: encode 2 vs := rfl
    rw [he, Mat.u16s, ih hvs]
    congr 1
    omega

/-! ## Reading back -/

theorem packStride_ge (rowBytes alignment : Nat) : rowBytes ≤ packStride rowBytes alignment := by
  unfold packStride
  split
  · exact Nat.le_refl _
  · rename_i ha
    have hpos : 0 < alignment := Nat.pos_of_ne_zero ha
    have h1 := Nat.div_add_mod (rowBytes + alignment - 1) alignment
    have h2 := Nat.mod_lt (rowBytes + alignment - 1) hpos
    rw [Nat.mul_comm]
    generalize alignment * ((rowBytes + alignment - 1) / alignment) = m at h1 ⊢
    omega

theorem packStride_exact (rowBytes alignment : Nat) (h : rowBytes % alignment = 0) :
    packStride rowBytes alignment = rowBytes := by
  unfold packStride
  split
  · rfl
  · rename_i ha
    have hpos : 0 < alignment := Nat.pos_of_ne_zero ha
    obtain ⟨k, rfl⟩ := Nat.dvd_of_mod_eq_zero h
    have he : alignment * k + alignment - 1 = alignment * k + (alignment - 1) := by omega
    rw [he, Nat.mul_add_div hpos, Nat.div_eq_of_lt (by omega), Nat.add_zero, Nat.mul_comm]

theorem packRows_length (rowBytes stride : Nat) (hs : rowBytes ≤ stride) (n : Nat)
    (bytes buf d : List Nat) (h : packRows rowBytes stride n bytes buf = some d) :
    d.length = buf.length := by
  induction n generalizing bytes buf d with
  | zero =>
    simp only [packRows, Option.some.injEq] at h
    rw [← h]
  | succ n ih =>
    unfold packRows at h
    split at h
    · split at h
      · simp only [Option.some.injEq] at h
        rw [← h, List.length_append, List.length_drop, List.length_take]
        omega
      · cases h
    · split at h
      · cases hrec : packRows rowBytes stride n (bytes.drop rowBytes) (buf.drop stride) with
        | none => rw [hrec] at h; cases h
        | some rest =>
          rw [hrec] at h
          simp only [Option.map_some', Option.some.injEq] at h
          have hr := ih _ _ _ hrec
          rw [← h]
          simp only [List.length_append, List.length_drop, List.length_take, hr]
          omega
      · cases h

theorem packRows_tight (k n : Nat) (bytes buf : List Nat)
    (hb : bytes.length = n * k) (hbuf : buf.length = n * k) :
    packRows k k n bytes buf = some bytes := by
  induction n generalizing bytes buf with
  | zero =>
    have h1 : bytes = [] := List.length_eq_zero.mp (by simpa using hb)
    have h2 : buf = [] := List.length_eq_zero.mp (by simpa using hbuf)
    simp [packRows, h1, h2]
  | succ n ih =>
    have hk : k ≤ bytes.length := by rw [hb, Nat.succ_mul]; omega
    have hk2 : k ≤ buf.length := by rw [hbuf, Nat.succ_mul]; omega
    have htake : (bytes.take k).length = k := by rw [List.length_take]; omega
    unfold packRows
    split
    · rename_i hn
      subst hn
      have hb1 : bytes.length = k := by simpa using hb
      have hbuf1 : buf.length = k := by simpa using hbuf
      simp only [hk2, if_true, htake]
      rw [List.take_of_length_le (by omega), List.drop_of_length_le (by omega), List.append_nil]
    · simp only [hk2, if_true, htake]
      have h1 : (bytes.drop k).length = n * k := by
        rw [List.length_drop, hb, Nat.succ_mul]; omega
      have h2 : (buf.drop k).length = n * k := by
        rw [List.length_drop, hbuf, Nat.succ_mul]; omega
      rw [ih _ _ h1 h2]
      simp only [Option.map_some', Option.some.injEq]
      rw [List.drop_of_length_le (by rw [List.length_take]; omega), List.append_nil,
        List.take_append_drop]

theorem pixels_eq (h w : Int) (hh : 0 ≤ h) (hw : 0 ≤ w) : pixels h w = h.toNat * w.toNat := by
  obtain ⟨a, rfl⟩ := Int.eq_ofNat_of_zero_le hh
  obtain ⟨b, rfl⟩ := Int.eq_ofNat_of_zero_le hw
  simp only [pixels, Int.toNat_ofNat]
  rw [← Int.natCast_mul, Int.toNat_ofNat]

/-- A readback whose rows need no padding and whose buffer has the size of the
image delivers the bytes of the components, in order. -/
theorem glGetTexImage_bound (gl : GLState) (texture : GLuint) (format type : GLenum)
    (img : TexImage) (size : Nat) (buf : List Nat)
    (hlook : gl.images.lookup texture = some img)
    (hsize : componentSize img format type = some size)
    (hpack : (img.width.toNat * components img.internalFormat * size) % gl.packAlignment = 0)
    (htex : (encode size img.texels).length =
      img.height.toNat * (img.width.toNat * components img.internalFormat * size))
    (hbuf : buf.length =
      img.height.toNat * (img.width.toNat * components img.internalFormat * size)) :
    (glGetTexImage (glBindTexture gl GL_TEXTURE_2D texture) GL_TEXTURE_2D 0 format type buf).1 =
      some (encode size img.texels) := by
  simp only [glGetTexImage, glBindTexture, if_true, hlook, hsize]
  rw [packStride_exact _ _ hpack]
  exact packRows_tight _ _ _ _ htex hbuf

theorem readback_u16 (gl : GLState) (texture : GLuint) (h w : Int) (p buf : List Nat)
    (hh : 0 ≤ h) (hw : 0 ≤ w)
    (hlook : gl.images.lookup texture =
      some { width := w, height := h, internalFormat := GL_R16UI, texels := p })
    (hp : p.length = pixels h w)
    (hpack : (2 * w.toNat) % gl.packAlignment = 0)
    (hbuf : buf.length = 2 * pixels h w) :
    (glGetTexImage (glBindTexture gl GL_TEXTURE_2D texture) GL_TEXTURE_2D 0
      GL_RED_INTEGER GL_UNSIGNED_SHORT buf).1 = some (encode 2 p) := by
  have hrow : w.toNat * components GL_R16UI * 2 = 2 * w.toNat := by
    simp [components, Nat.mul_comm]
  refine glGetTexImage_bound gl texture GL_RED_INTEGER GL_UNSIGNED_SHORT
    { width := w, height := h, internalFormat := GL_R16UI, texels := p } 2 buf hlook
    (by simp [componentSize]) ?_ ?_ ?_
  · show (w.toNat * components GL_R16UI * 2) % gl.packAlignment = 0
    rw [hrow]; exact hpack
  · show (encode 2 p).length = h.toNat * (w.toNat * components GL_R16UI * 2)
    rw [hrow, encode_length, hp, pixels_eq h w hh hw]; ring
  · show buf.length = h.toNat * (w.toNat * components GL_R16UI * 2)
    rw [hrow, hbuf, pixels_eq h w hh hw]; ring

theorem readback_f32 (gl : GLState) (texture : GLuint) (h w : Int) (q buf : List Nat)
    (hh : 0 ≤ h) (hw : 0 ≤ w)
    (hlook : gl.images.lookup texture =
      some { width := w, height := h, internalFormat := GL_RGB32F, texels := q })
    (hq : q.length = 3 * pixels h w)
    (hpack : (12 * w.toNat) % gl.packAlignment = 0)
    (hbuf : buf.length = 12 * pixels h w) :
    (glGetTexImage (glBindTexture gl GL_TEXTURE_2D texture) GL_TEXTURE_2D 0
      GL_RGB GL_FLOAT buf).1 = some (encode 4 q) := by
  have hrow : w.toNat * components GL_RGB32F * 4 = 12 * w.toNat := by
    simp [components]; ring
  refine glGetTexImage_bound gl texture GL_RGB GL_FLOAT
    { width := w, height := h, internalFormat := GL_RGB32F, texels := q } 4 buf hlook
    (by simp [componentSize]) ?_ ?_ ?_
  · show (w.toNat * components GL_RGB32F * 4) % gl.packAlignment = 0
    rw [hrow]; exact hpack
  · show (encode 4 q).length = h.toNat * (w.toNat * components GL_RGB32F * 4)
    rw [hrow, encode_length, hq, pixels_eq h w hh hw]; ring
  · show buf.length = h.toNat * (w.toNat * components GL_RGB32F * 4)
    rw [hrow, hbuf, pixels_eq h w hh hw]; ring

theorem Mat.create_ok (rows cols : Int) (type : Nat) (hr : 0 ≤ rows) (hc : 0 ≤ cols) :
    Mat.create rows cols type =
      .ok { rows := rows, cols := cols, type := type,
            data := List.replicate
              ((rows * cols).toNat * (type / 8 + 1) *
                Mat.elemSize1 { rows := rows, cols := cols, type := type, data := [] }) 0 } := by
  simp [Mat.create, Mat.channels, not_lt.mpr hr, not_lt.mpr hc]

/-! ## The channel copy -/

theorem copyChannel_length (n : Nat) (src dst : List Nat) (hd : dst.length = 3 * n)
    (hs : src.length = n) : (Mat.copyChannel 1 1 3 n src dst).length = 3 * n := by
  induction n generalizing src dst with
  | zero => simpa [Mat.copyChannel] using hd
  | succ n ih =>
    have h1 : (src.drop 1).length = n := by simp [hs]
    have h2 : (dst.drop 3).length = 3 * n := by simp [hd]; omega
    simp only [Mat.copyChannel, Nat.mul_one, List.length_append, List.length_take,
      List.length_drop, ih _ _ h2 h1, hs, hd]
    omega

theorem copyChannel_first (n : Nat) (src dst : List Nat) (hd : dst.length = 3 * n)
    (hs : src.length = n) (i : Nat) (hi : i < n) :
    (Mat.copyChannel 1 1 3 n src dst)[3 * i]? = src[i]? := by
  induction n generalizing src dst i with
  | zero => omega
  | succ n ih =>
    have h1 : (src.drop 1).length = n := by simp [hs]
    have h2 : (dst.drop 3).length = 3 * n := by simp [hd]; omega
    obtain ⟨s, src2, rfl⟩ : ∃ s src2, src = s :: src2 := by
      cases src with
      | nil => simp at hs
      | cons s src2 => exact ⟨s, src2, rfl⟩
    have hpre : (List.take 1 (s :: src2) ++ List.drop 1 (List.take (3 * 1) dst)).length = 3 := by
      simp [List.length_take, hd]
    cases i with
    | zero => simp [Mat.copyChannel]
    | succ i =>
      simp only [Mat.copyChannel]
      rw [List.getElem?_append_right (by rw [hpre]; omega), hpre]
      have : 3 * (i + 1) - 3 = 3 * i := by omega
      rw [this, ih _ _ h2 h1 i (by omega)]
      simp

theorem mixChannels_gray (h w : Int) (g d8 : List Nat)
    (hg : g.length = pixels h w) (h8 : d8.length = 3 * pixels h w) :
    Mat.mixChannels { rows := h, cols := w, type := 0, data := g }
        { rows := h, cols := w, type := CV_8UC3, data := d8 } =
      .ok { rows := h, cols := w, type := CV_8UC3,
            data := Mat.copyChannel 1 1 3 (pixels h w) g d8 } := by
  by_cases hn : pixels h w = 0
  · have hg0 : g = [] := List.length_eq_zero.mp (by rw [hg, hn])
    have hd0 : d8 = [] := List.length_eq_zero.mp (by rw [h8, hn])
    subst hg0 hd0
    simp [Mat.mixChannels, Mat.depth, hn, Mat.copyChannel, CV_8UC3]
  · have hg0 : g ≠ [] := fun e => hn (by rw [← hg, e]; rfl)
    have hd0 : d8 ≠ [] := fun e => hn (by
      have : 3 * pixels h w = 0 := by rw [← h8, e]; rfl
      omega)
    simp [Mat.mixChannels, Mat.depth, Mat.channels, Mat.elemSize1, hg0, hd0, pixels, CV_8UC3]

theorem fetchColorRead_ok (self : CustomFrameBuffer) (gl : GLState) (h w : Int)
    (p d16 d8 : List Nat)
    (hlook : gl.images.lookup self.color_tex =
      some { width := w, height := h, internalFormat := GL_R16UI, texels := p })
    (hh : 0 ≤ h) (hw : 0 ≤ w)
    (hp : p.length = pixels h w) (hbits : ∀ v ∈ p, v < 65536)
    (hpack : (2 * w.toNat) % gl.packAlignment = 0)
    (h16 : d16.length = 2 * pixels h w) (h8 : d8.length = 3 * pixels h w) :
    fetchColorRead self { rows := h, cols := w, type := CV_16UC1, data := d16 } gl
        { rows := h, cols := w, type := CV_8UC3, data := d8 } =
      ({ rows := h, cols := w, type := CV_16UC1, data := encode 2 p },
        .ok ({ rows := h, cols := w, type := CV_8UC3,
               data := Mat.copyChannel 1 1 3 (pixels h w) (p.map (fun v => min v 255)) d8 },
             glBindTexture (glGetTexImage (glBindTexture gl GL_TEXTURE_2D self.color_tex)
               GL_TEXTURE_2D 0 GL_RED_INTEGER GL_UNSIGNED_SHORT d16).2 GL_TEXTURE_2D 0)) := by
  have hget := readback_u16 gl self.color_tex h w p d16 hh hw hlook hp hpack h16
  have ht : (8 * (CV_16UC1 / 8) : Nat) = 0 := rfl
  simp only [fetchColorRead, hget, Mat.convertTo, u16s_encode p hbits, ht]
  rw [mixChannels_gray h w _ d8 (by simp [hp]) h8]

theorem alloc_ready (m : Mat) (h w : Int) (t k : Nat) (hh : 0 ≤ h) (hw : 0 ≤ w)
    (hk : (t / 8 + 1) * Mat.elemSize1 { rows := h, cols := w, type := t, data := [] } = k)
    (hm : m.empty = true ∨
      (m.rows = h ∧ m.cols = w ∧ m.type = t ∧ m.data.length = k * pixels h w)) :
    ∃ d, d.length = k * pixels h w ∧
      (if m.empty then Mat.create h w t else .ok m) =
        .ok { rows := h, cols := w, type := t, data := d } := by
  cases he : m.empty
  · rcases hm with hm | ⟨h1, h2, h3, h4⟩
    · rw [he] at hm; cases hm
    · refine ⟨m.data, h4, ?_⟩
      obtain ⟨r, c, ty, d⟩ := m
      simp only at h1 h2 h3
      subst h1 h2 h3
      simp
  · refine ⟨_, ?_, by simp only [if_true]; exact Mat.create_ok h w t hh hw⟩
    rw [List.length_replicate, ← hk, pixels]
    ring

/-- C7, as amended: let the color texture of an object of width w and height h, neither
negative, hold the 16-bit pattern p, let GL_PACK_ALIGNMENT divide the 2 * w bytes of a row, so
that the readback pads no row, and let the scratch buffer of the process be empty or of h
rows and w columns of type CV_16UC1.  Then fetch_color_attachment called with an empty image
returns an image of h rows, w columns and type CV_8UC3 whose first channel at every pixel is
the value of the pattern there saturated to 255, hence the value itself when it is at most
255. -/
theorem fetch_color_first_channel (self : CustomFrameBuffer) (gray_16u : Mat) (gl : GLState)
    (image : Mat) (p : List Nat)
    (hh : 0 ≤ self.image_height) (hw : 0 ≤ self.image_width)
    (hlook : gl.images.lookup self.color_tex =
      some { width := self.image_width, height := self.image_height,
             internalFormat := GL_R16UI, texels := p })
    (hp : p.length = pixels self.image_height self.image_width)
    (hbits : ∀ v ∈ p, v < 65536)
    (hpack : (2 * self.image_width.toNat) % gl.packAlignment = 0)
    (hscratch : gray_16u.empty = true ∨
      (gray_16u.rows = self.image_height ∧ gray_16u.cols = self.image_width ∧
        gray_16u.type = CV_16UC1 ∧
        gray_16u.data.length = 2 * pixels self.image_height self.image_width))
    (himage : image.empty = true) :
    ∃ img gl2, (fetch_color_attachment self gray_16u gl image).2 = .ok (img, gl2) ∧
      img.rows = self.image_height ∧ img.cols = self.image_width ∧ img.type = CV_8UC3 ∧
      img.data.length = 3 * pixels self.image_height self.image_width ∧
      (∀ i v, p[i]? = some v → img.data[3 * i]? = some (min v 255)) ∧
      (∀ i v, p[i]? = some v → v ≤ 255 → img.data[3 * i]? = some v) := by
  obtain ⟨d16, h16, halloc16⟩ := alloc_ready gray_16u self.image_height self.image_width
    CV_16UC1 2 hh hw rfl hscratch
  obtain ⟨d8, h8, halloc8⟩ := alloc_ready image self.image_height self.image_width
    CV_8UC3 3 hh hw (by simp [Mat.elemSize1, CV_8UC3]) (Or.inl himage)
  have hread := fetchColorRead_ok self gl self.image_height self.image_width p d16 d8 hlook
    hh hw hp hbits hpack h16 h8
  have hmap : (p.map (fun v => min v 255)).length = pixels self.image_height self.image_width := by
    simp [hp]
  have hfirst : ∀ i v, p[i]? = some v →
      (Mat.copyChannel 1 1 3 (pixels self.image_height self.image_width)
        (p.map (fun v => min v 255)) d8)[3 * i]? = some (min v 255) := by
    intro i v hv
    have hi : i < pixels self.image_height self.image_width := by
      rw [← hp]
      by_contra hge
      rw [List.getElem?_eq_none (by omega)] at hv
      cases hv
    rw [copyChannel_first _ _ _ h8 hmap i hi]
    simp [hv]
  refine ⟨{ rows := self.image_height, cols := self.image_width, type := CV_8UC3,
            data := Mat.copyChannel 1 1 3 (pixels self.image_height self.image_width)
              (p.map (fun v => min v 255)) d8 },
    glBindTexture (glGetTexImage (glBindTexture gl GL_TEXTURE_2D self.color_tex)
      GL_TEXTURE_2D 0 GL_RED_INTEGER GL_UNSIGNED_SHORT d16).2 GL_TEXTURE_2D 0,
    ?_, rfl, rfl, rfl, ?_, hfirst, ?_⟩
  · simp only [fetch_color_attachment, halloc16, halloc8, hread]
  · exact copyChannel_length _ _ _ h8 hmap
  · intro i v hv hle
    rw [hfirst i v hv, Nat.min_eq_left hle]

/-- C8, as amended: on an object of width w and height h, neither negative, whose texture
holds an image of that size, when GL_PACK_ALIGNMENT divides the bytes of a row (2 * w for
depth, 12 * w for normals), so that the readback pads no row, and for an image
that is empty or already has h rows, w columns and the type of the attachment,
fetch_depth_attachment leaves the image with h rows, w columns and type CV_16UC1 and
fetch_normals_attachment with h rows, w columns and type CV_32FC3, its bytes being exactly
those of the components the texture holds. -/
theorem fetch_depth_normals_exact (self : CustomFrameBuffer) (gl : GLState)
    (hh : 0 ≤ self.image_height) (hw : 0 ≤ self.image_width) :
    (∀ (image : Mat) (p : List Nat),
      gl.images.lookup self.depth_tex =
        some { width := self.image_width, height := self.image_height,
               internalFormat := GL_R16UI, texels := p } →
      p.length = pixels self.image_height self.image_width →
      (2 * self.image_width.toNat) % gl.packAlignment = 0 →
      (image.empty = true ∨
        (image.rows = self.image_height ∧ image.cols = self.image_width ∧
          image.type = CV_16UC1 ∧
          image.data.length = 2 * pixels self.image_height self.image_width)) →
      ∃ gl2, fetch_depth_attachment self gl image =
        .ok ({ rows := self.image_height, cols := self.image_width, type := CV_16UC1,
               data := encode 2 p }, gl2)) ∧
    (∀ (image : Mat) (q : List Nat),
      gl.images.lookup self.normals_tex =
        some { width := self.image_width, height := self.image_height,
               internalFormat := GL_RGB32F, texels := q } →
      q.length = 3 * pixels self.image_height self.image_width →
      (12 * self.image_width.toNat) % gl.packAlignment = 0 →
      (image.empty = true ∨
        (image.rows = self.image_height ∧ image.cols = self.image_width ∧
          image.type = CV_32FC3 ∧
          image.data.length = 12 * pixels self.image_height self.image_width)) →
      ∃ gl2, fetch_normals_attachment self gl image =
        .ok ({ rows := self.image_height, cols := self.image_width, type := CV_32FC3,
               data := encode 4 q }, gl2)) := by
  constructor
  · intro image p hlook hp hpack himage
    obtain ⟨d, hd, halloc⟩ := alloc_ready image self.image_height self.image_width
      CV_16UC1 2 hh hw rfl himage
    have hget := readback_u16 gl self.depth_tex self.image_height self.image_width p d hh hw
      hlook hp hpack hd
    exact ⟨_, by simp only [fetch_depth_attachment, halloc, hget]; rfl⟩
  · intro image q hlook hq hpack himage
    obtain ⟨d, hd, halloc⟩ := alloc_ready image self.image_height self.image_width
      CV_32FC3 12 hh hw (by simp [Mat.elemSize1, CV_32FC3]) himage
    have hget := readback_f32 gl self.normals_tex self.image_height self.image_width q d hh hw
      hlook hq hpack hd
    exact ⟨_, by simp only [fetch_normals_attachment, halloc, hget]; rfl⟩

/-! ## The scratch buffer -/

theorem glGetTexImage_length (gl : GLState) (target : GLenum) (level : Int)
    (format type : GLenum) (buf d : List Nat)
    (h : (glGetTexImage gl target level format type buf).1 = some d) :
    d.length = buf.length := by
  unfold glGetTexImage at h
  split at h
  · simp only [Option.some.injEq] at h
    rw [← h]
  · split at h
    · simp only [Option.some.injEq] at h
      rw [← h]
    · exact packRows_length _ _ (packStride_ge _ _) _ _ _ _ h

theorem fetchColorRead_scratch (self : CustomFrameBuffer) (g : Mat) (gl : GLState) (image : Mat) :
    (fetchColorRead self g gl image).1.rows = g.rows ∧
      (fetchColorRead self g gl image).1.cols = g.cols ∧
      (fetchColorRead self g gl image).1.type = g.type ∧
      (fetchColorRead self g gl image).1.data.length = g.data.length := by
  unfold fetchColorRead
  simp only
  split
  · simp
  · rename_i d hgot
    have hlen := glGetTexImage_length _ _ _ _ _ _ _ hgot
    split <;> simp [hlen]

/-- A scratch buffer that is not empty keeps its size and type through a call. -/
theorem fetch_color_keeps_scratch (self : CustomFrameBuffer) (g : Mat) (gl : GLState)
    (image : Mat) (hg : g.empty = false) :
    (fetch_color_attachment self g gl image).1.rows = g.rows ∧
      (fetch_color_attachment self g gl image).1.cols = g.cols ∧
      (fetch_color_attachment self g gl image).1.type = g.type ∧
      (fetch_color_attachment self g gl image).1.data.length = g.data.length := by
  unfold fetch_color_attachment
  simp only [hg, Bool.false_eq_true, if_false]
  split
  · simp
  · exact fetchColorRead_scratch self g gl _

/-- An empty scratch buffer is allocated with the size of the instance. -/
theorem fetch_color_allocates_scratch (self : CustomFrameBuffer) (g : Mat) (gl : GLState)
    (image : Mat) (hg : g.empty = true)
    (hh : 0 ≤ self.image_height) (hw : 0 ≤ self.image_width) :
    (fetch_color_attachment self g gl image).1.rows = self.image_height ∧
      (fetch_color_attachment self g gl image).1.cols = self.image_width ∧
      (fetch_color_attachment self g gl image).1.type = CV_16UC1 ∧
      (fetch_color_attachment self g gl image).1.data.length =
        2 * pixels self.image_height self.image_width := by
  obtain ⟨d, hd, halloc⟩ := alloc_ready g self.image_height self.image_width
    CV_16UC1 2 hh hw rfl (Or.inl hg)
  unfold fetch_color_attachment
  simp only [halloc]
  split
  · simp [hd]
  · have hr := fetchColorRead_scratch self
      { rows := self.image_height, cols := self.image_width, type := CV_16UC1, data := d } gl
    rename_i im _
    obtain ⟨h1, h2, h3, h4⟩ := hr im
    exact ⟨h1, h2, h3, by rw [h4]; exact hd⟩

theorem pixels_pos (h w : Int) (hh : 0 < h) (hw : 0 < w) : 0 < pixels h w := by
  have : 0 < h * w := Int.mul_pos hh hw
  simp only [pixels]
  omega

theorem not_empty_of_allocated (g : Mat) (h w : Int) (hh : 0 < h) (hw : 0 < w)
    (h1 : g.rows = h) (h2 : g.cols = w) (h4 : g.data.length = 2 * pixels h w) :
    g.empty = false := by
  have hp := pixels_pos h w hh hw
  have hne : g.data ≠ [] := fun e => by rw [e] at h4; simp at h4; omega
  have hm : g.rows * g.cols ≠ 0 := by
    rw [h1, h2]; exact ne_of_gt (Int.mul_pos hh hw)
  simp [Mat.empty, hne, hm]

theorem scratchAfter_allocated (g : Mat) (h w : Int) (t : Nat) (hh : 0 < h) (hw : 0 < w)
    (h1 : g.rows = h) (h2 : g.cols = w) (h3 : g.type = t) (h4 : g.data.length = 2 * pixels h w)
    (calls : List FetchCall) :
    (scratchAfter g calls).rows = h ∧ (scratchAfter g calls).cols = w ∧
      (scratchAfter g calls).type = t := by
  induction calls generalizing g with
  | nil => exact ⟨h1, h2, h3⟩
  | cons c cs ih =>
    have hne := not_empty_of_allocated g h w hh hw h1 h2 h4
    obtain ⟨k1, k2, k3, k4⟩ := fetch_color_keeps_scratch c.self g c.gl c.image hne
    simp only [scratchAfter]
    exact ih _ (k1.trans h1) (k2.trans h2) (k3.trans h3) (k4.trans h4)

/-- C10, as amended: a scratch buffer that is not empty keeps its rows, columns and type
through every call, whatever the instance; and in a process whose first call of
fetch_color_attachment is made on an instance of positive width and height, the buffer has
the image_height rows and image_width columns of that instance after the first call and after
every later call, on any instance. -/
theorem scratch_allocated_once (first : FetchCall) (rest : List FetchCall)
    (hh : 0 < first.self.image_height) (hw : 0 < first.self.image_width) :
    (∀ (self : CustomFrameBuffer) (g : Mat) (gl : GLState) (image : Mat), g.empty = false →
      (fetch_color_attachment self g gl image).1.rows = g.rows ∧
      (fetch_color_attachment self g gl image).1.cols = g.cols ∧
      (fetch_color_attachment self g gl image).1.type = g.type) ∧
    (scratchAfter Mat.default [first]).rows = first.self.image_height ∧
    (scratchAfter Mat.default [first]).cols = first.self.image_width ∧
    (scratchAfter Mat.default [first]).type = CV_16UC1 ∧
    (scratchAfter Mat.default (first :: rest)).rows = first.self.image_height ∧
    (scratchAfter Mat.default (first :: rest)).cols = first.self.image_width ∧
    (scratchAfter Mat.default (first :: rest)).type = CV_16UC1 := by
  obtain ⟨a1, a2, a3, a4⟩ := fetch_color_allocates_scratch first.self Mat.default first.gl
    first.image rfl (le_of_lt hh) (le_of_lt hw)
  refine ⟨fun self g gl image hg => ?_, a1, a2, a3, ?_⟩
  · obtain ⟨k1, k2, k3, _⟩ := fetch_color_keeps_scratch self g gl image hg
    exact ⟨k1, k2, k3⟩
  · exact scratchAfter_allocated _ _ _ _ hh hw a1 a2 a3 a4 rest

/-- Instance of C7 as amended: a pattern of eight values on an object of width 4 and height
2, pack alignment 4, the scratch buffer and the image both empty. -/
theorem fetch_color_first_channel_witness :
    ∃ img gl2, (fetch_color_attachment bandWorld.self Mat.default paintedGL Mat.default).2 =
        .ok (img, gl2) ∧
      img.rows = bandWorld.self.image_height ∧ img.cols = bandWorld.self.image_width ∧
      img.type = CV_8UC3 ∧
      img.data.length = 3 * pixels bandWorld.self.image_height bandWorld.self.image_width ∧
      (∀ i v, [7, 300, 255, 65535, 0, 256, 254, 1000][i]? = some v →
        img.data[3 * i]? = some (min v 255)) ∧
      (∀ i v, [7, 300, 255, 65535, 0, 256, 254, 1000][i]? = some v → v ≤ 255 →
        img.data[3 * i]? = some v) :=
  fetch_color_first_channel bandWorld.self Mat.default paintedGL Mat.default
    [7, 300, 255, 65535, 0, 256, 254, 1000] (by decide) (by decide) rfl rfl (by decide)
    (by decide) (Or.inl rfl) rfl

/-- C7 fails as stated, in two ways.  First, in a process where fetch_color_attachment has
first been called on an object of width 4 and height 4, the call on an initialized object of
width 2 and height 2 with an empty image returns no image: the scratch buffer keeps 4 rows
and 4 columns and the channel copy raises an exception on the unequal sizes.  Second, in a
new context, where GL_PACK_ALIGNMENT is 4, the call on an initialized object of width 3 and
height 2 with the scratch buffer and the image both empty returns no image either: the rows
of 6 bytes are written 8 bytes apart, 14 bytes in all, past the end of the 12 bytes of the
scratch buffer. -/
theorem fetch_color_stale_scratch :
    secondWorld.self.needs_cleanup = true ∧
    secondWorld.self.image_width = 2 ∧ secondWorld.self.image_height = 2 ∧
    secondWorld.gl.images.lookup secondWorld.self.color_tex =
      some { width := 2, height := 2, internalFormat := GL_R16UI,
             texels := [300, 301, 302, 303] } ∧
    (fetch_color_attachment firstWorld.self Mat.default secondWorld.gl Mat.default).1.rows = 4 ∧
    (fetch_color_attachment firstWorld.self Mat.default secondWorld.gl Mat.default).1.cols = 4 ∧
    (fetch_color_attachment secondWorld.self
      (fetch_color_attachment firstWorld.self Mat.default secondWorld.gl Mat.default).1
      secondWorld.gl Mat.default).2 = .error Failure.cvException ∧
    oddWorld.self.needs_cleanup = true ∧
    oddWorld.self.image_width = 3 ∧ oddWorld.self.image_height = 2 ∧
    oddWorld.gl.packAlignment = 4 ∧
    oddWorld.gl.images.lookup oddWorld.self.color_tex =
      some { width := 3, height := 2, internalFormat := GL_R16UI,
             texels := [300, 301, 302, 303, 304, 305] } ∧
    (fetch_color_attachment oddWorld.self Mat.default oddWorld.gl Mat.default).2 =
      .error Failure.memoryFault :=
  ⟨rfl, rfl, rfl, rfl, rfl, rfl, rfl, rfl, rfl, rfl, rfl, rfl, rfl⟩

/-- Instance of C8 as amended on an object of width 4 and height 2 with a depth and a normals
texture, pack alignment 4, the image empty. -/
theorem fetch_depth_normals_exact_witness :
    (0 ≤ normalsWorld.self.image_height ∧ 0 ≤ normalsWorld.self.image_width) ∧
    (∃ gl2, fetch_depth_attachment normalsWorld.self normalsWorld.gl Mat.default =
      .ok ({ rows := 2, cols := 4, type := CV_16UC1,
             data := encode 2 [300, 301, 302, 303, 304, 305, 306, 307] }, gl2)) ∧
    (∃ gl2, fetch_normals_attachment normalsWorld.self normalsWorld.gl Mat.default =
      .ok ({ rows := 2, cols := 4, type := CV_32FC3,
             data := encode 4 [300, 301, 302, 303, 304, 305, 306, 307, 308, 309, 310, 311,
               312, 313, 314, 315, 316, 317, 318, 319, 320, 321, 322, 323] }, gl2)) :=
  ⟨⟨by decide, by decide⟩,
   (fetch_depth_normals_exact normalsWorld.self normalsWorld.gl (by decide) (by decide)).1
     Mat.default [300, 301, 302, 303, 304, 305, 306, 307] rfl rfl (by decide) (Or.inl rfl),
   (fetch_depth_normals_exact normalsWorld.self normalsWorld.gl (by decide) (by decide)).2
     Mat.default [300, 301, 302, 303, 304, 305, 306, 307, 308, 309, 310, 311,
       312, 313, 314, 315, 316, 317, 318, 319, 320, 321, 322, 323] rfl rfl (by decide)
     (Or.inl rfl)⟩

/-- C8 fails as stated, in two ways.  First, on an initialized object of width 2 and height 2
whose depth texture exists, fetch_depth_attachment called with an image already allocated
with 4 rows, 4 columns and type CV_8UC3 returns that image with its 4 rows, 4 columns and
type CV_8UC3: an image that is not empty is never reallocated.  Second, in a new context,
where GL_PACK_ALIGNMENT is 4, fetch_depth_attachment called with an empty image on an
initialized object of width 3 and height 2 returns no image: the rows of 6 bytes are written
8 bytes apart, 14 bytes in all, past the end of the 12 bytes of the image. -/
theorem fetch_depth_keeps_allocated_image :
    depthWorld.self.needs_cleanup = true ∧
    depthWorld.self.image_width = 2 ∧ depthWorld.self.image_height = 2 ∧
    depthWorld.gl.images.lookup depthWorld.self.depth_tex =
      some { width := 2, height := 2, internalFormat := GL_R16UI,
             texels := [300, 301, 302, 303] } ∧
    (∃ img gl2, fetch_depth_attachment depthWorld.self depthWorld.gl
        { rows := 4, cols := 4, type := CV_8UC3, data := List.replicate 48 7 } = .ok (img, gl2) ∧
      img.rows = 4 ∧ img.cols = 4 ∧ img.type = CV_8UC3) ∧
    oddWorld.self.needs_cleanup = true ∧
    oddWorld.self.image_width = 3 ∧ oddWorld.self.image_height = 2 ∧
    oddWorld.gl.packAlignment = 4 ∧
    oddWorld.gl.images.lookup oddWorld.self.depth_tex =
      some { width := 3, height := 2, internalFormat := GL_R16UI,
             texels := [300, 301, 302, 303, 304, 305] } ∧
    fetch_depth_attachment oddWorld.self oddWorld.gl Mat.default =
      .error Failure.memoryFault :=
  ⟨rfl, rfl, rfl, rfl, ⟨_, _, rfl, rfl, rfl, rfl⟩, rfl, rfl, rfl, rfl, rfl, rfl⟩

/-- Instance of C10 as amended: a first call on an object of 4 by 4, a second on an object
of 2 by 2; the scratch buffer still has 4 rows and 4 columns. -/
theorem scratch_allocated_once_witness :
    (0 < firstWorld.self.image_height ∧ 0 < firstWorld.self.image_width) ∧
    (scratchAfter Mat.default
      [{ self := firstWorld.self, gl := secondWorld.gl, image := Mat.default },
       { self := secondWorld.self, gl := secondWorld.gl, image := Mat.default }]).rows = 4 ∧
    (scratchAfter Mat.default
      [{ self := firstWorld.self, gl := secondWorld.gl, image := Mat.default },
       { self := secondWorld.self, gl := secondWorld.gl, image := Mat.default }]).cols = 4 :=
  ⟨⟨by decide, by decide⟩,
   (scratch_allocated_once
     { self := firstWorld.self, gl := secondWorld.gl, image := Mat.default }
     [{ self := secondWorld.self, gl := secondWorld.gl, image := Mat.default }]
     (by decide) (by decide)).2.2.2.2.1,
   (scratch_allocated_once
     { self := firstWorld.self, gl := secondWorld.gl, image := Mat.default }
     [{ self := secondWorld.self, gl := secondWorld.gl, image := Mat.default }]
     (by decide) (by decide)).2.2.2.2.2.1⟩

/-- C10 fails as stated: when the first call of fetch_color_attachment is made on an object
of width 0 and height 5, the scratch buffer it allocates has 5 rows and 0 columns and is
still empty, so the next call, made on an object of width 4 and height 4, allocates it again
with 4 rows and 4 columns: the dimensions of the first call are not kept. -/
theorem scratch_reallocated_after_empty_first :
    flatWorld.self.needs_cleanup = true ∧
    flatWorld.self.image_width = 0 ∧ flatWorld.self.image_height = 5 ∧
    (scratchAfter Mat.default
      [{ self := flatWorld.self, gl := wideWorld.gl, image := Mat.default }]).rows = 5 ∧
    (scratchAfter Mat.default
      [{ self := flatWorld.self, gl := wideWorld.gl, image := Mat.default }]).cols = 0 ∧
    (scratchAfter Mat.default
      [{ self := flatWorld.self, gl := wideWorld.gl, image := Mat.default },
       { self := wideWorld.self, gl := wideWorld.gl, image := Mat.default }]).rows = 4 ∧
    (scratchAfter Mat.default
      [{ self := flatWorld.self, gl := wideWorld.gl, image := Mat.default },
       { self := wideWorld.self, gl := wideWorld.gl, image := Mat.default }]).cols = 4 :=
  ⟨rfl, rfl, rfl, rfl, rfl, rfl, rfl⟩

end HOnline
